import Mathlib

/-!
# Verification of the ComfyUI-Smart-Resolution-Calc dimension resolver

This file gives a shallow embedding, in Lean 4, of the core resolution engine of
the repository (`py/smart_resolution_calc.py`), and proves or refutes the frozen
claims about it.

Embedding conventions:

* Python dictionaries for `widgets` and `runtime_context` are embedded as
  structures whose optional entries are `Option`-valued; `d.get(k, default)`
  becomes `Option.getD` and a bare `d[k]` becomes a lookup that produces a
  `KeyError` when the key is absent.
* Fallible Python code is embedded in the `Except PyErr` monad: an uncaught
  Python exception is an `Except.error`.
* Python `int` is embedded as `ℤ` and Python `float` as `ℚ`: float arithmetic is
  idealized as exact rational arithmetic (IEEE-754 rounding noise is out of
  scope).  Python `round` is round-half-to-even, embedded as `pyRound`.
* `round(math.sqrt (x))` on the exact value is embedded as `rsqrtNearest`,
  the round-half-to-even of the exact real square root of a rational; the
  expression `round(sqrt (t / r) * r)` is embedded through the exact real
  identity `sqrt (t / r) * r = sign r * sqrt (t * r)` (valid whenever
  `t / r ≥ 0`, the non-raising case of `math.sqrt`).
* Python `math.gcd` is `Int.gcd`, Python `//` (floor division) is `Int.fdiv`.
* Logging is a side effect invisible to the caller and is not modelled, except
  that the single warning guard of `_calculate_mp_width_explicit` is exposed as
  the boolean `mp_width_fallback_warning` so that it can be reasoned about.
* String interpolation in the `description` field uses `toString` of the exact
  embedded values; no claim depends on the rendered text.
-/

/-- A Python exception escaping a function of the resolver. -/
inductive PyErr where
  | keyError (key : String)
  | zeroDivisionError (msg : String)
  | valueError (msg : String)
  deriving DecidableEq, Repr

/-- The message an exception carries (`str(e)` in the source). -/
def PyErr.message : PyErr → String
  | .keyError k => k
  | .zeroDivisionError m => m
  | .valueError m => m

/-- `ZeroDivisionError` raised by `//` or `%` on ints. -/
def PyErr.intZeroDiv : PyErr := .zeroDivisionError "integer division or modulo by zero"

/-- `ZeroDivisionError` raised by `/` on floats. -/
def PyErr.floatZeroDiv : PyErr := .zeroDivisionError "float division by zero"

/-- `ValueError` raised by `math.sqrt` on a negative argument. -/
def PyErr.mathDomain : PyErr := .valueError "math domain error"

/-- An entry of the `conflicts` list (a Python dict with four keys). -/
structure Conflict where
  type : String
  severity : String
  message : String
  affectedWidgets : List String
  deriving DecidableEq, Repr

/-- An aspect-ratio dict: `{ratio, aspectW, aspectH}` with an optional
`source` key (present for parsed ratios, absent for dimension-derived ones). -/
structure ArInfo where
  ratio : ℚ
  aspectW : ℚ
  aspectH : ℚ
  source : Option String
  deriving DecidableEq, Repr

/-- The `image_info` dict of the runtime context. -/
structure ImageInfo where
  width : ℤ
  height : ℤ
  deriving DecidableEq, Repr

/-- The `runtime_context` dict.  A missing or falsy `image_info` entry is
`none`. -/
structure RuntimeContext where
  image_info : Option ImageInfo := none
  deriving DecidableEq, Repr

/-- The `widgets` dict.  Enabled flags model the truthiness of
`widgets.get('<k>_enabled', False)`; value entries are `Option`-valued because
the dict may lack them (a bare `widgets['<k>_value']` then raises `KeyError`). -/
structure Widgets where
  width_enabled : Bool := false
  width_value : Option ℤ := none
  height_enabled : Bool := false
  height_value : Option ℤ := none
  mp_enabled : Bool := false
  mp_value : Option ℚ := none
  image_mode_enabled : Bool := false
  image_mode_value : Option ℤ := none
  custom_ratio_enabled : Bool := false
  custom_aspect_ratio : Option String := none
  aspect_ratio_dropdown : Option String := none
  deriving DecidableEq, Repr

/-- The result dict of `calculate_dimension_source`. -/
structure Result where
  mode : String
  priority : ℤ
  baseW : ℤ
  baseH : ℤ
  source : String
  ar : ArInfo
  conflicts : List Conflict
  description : String
  activeSources : List String
  deriving DecidableEq, Repr

/-- `widgets[key]`: a required dict lookup, raising `KeyError` when absent. -/
def req {α : Type} (o : Option α) (key : String) : Except PyErr α :=
  match o with
  | some v => .ok v
  | none => .error (.keyError key)

/-- Embedding of Python `round` on an exact rational: round half to even. -/
def pyRound (q : ℚ) : ℤ :=
  if q - (⌊q⌋ : ℚ) < 1/2 then ⌊q⌋
  else if (1 : ℚ)/2 < q - (⌊q⌋ : ℚ) then ⌊q⌋ + 1
  else if ⌊q⌋ % 2 = 0 then ⌊q⌋ else ⌊q⌋ + 1

/-- Embedding of `round(math.sqrt q)` on the exact value, for `0 ≤ q`:
round-half-to-even of the exact real square root.  `Nat.sqrt ⌊q⌋.toNat` is
`⌊Real.sqrt q⌋`, and the half-integer tie point between `n₀` and `n₀ + 1` is
`((2 n₀ + 1) / 2) ^ 2`. -/
def rsqrtNearest (q : ℚ) : ℤ :=
  if q < ((2 * (Nat.sqrt ⌊q⌋.toNat : ℤ) + 1 : ℤ) : ℚ) ^ 2 / 4 then
    (Nat.sqrt ⌊q⌋.toNat : ℤ)
  else if ((2 * (Nat.sqrt ⌊q⌋.toNat : ℤ) + 1 : ℤ) : ℚ) ^ 2 / 4 < q then
    (Nat.sqrt ⌊q⌋.toNat : ℤ) + 1
  else if (Nat.sqrt ⌊q⌋.toNat : ℤ) % 2 = 0 then (Nat.sqrt ⌊q⌋.toNat : ℤ)
  else (Nat.sqrt ⌊q⌋.toNat : ℤ) + 1

/-- `round(sqrt (t / r) * r)` for `t / r ≥ 0`, via the exact real identity
`sqrt (t / r) * r = sign r * sqrt (t * r)`. -/
def rsqrtScaled (t r : ℚ) : ℤ :=
  if r < 0 then -(rsqrtNearest (t * r)) else rsqrtNearest (t * r)

/-- Python `str.strip()` whitespace test (restricted to the ASCII whitespace
characters; the claims involve ASCII text only). -/
def isPySpace (c : Char) : Bool :=
  c = ' ' || c = '\t' || c = '\n' || c = '\r' || c = Char.ofNat 11 || c = Char.ofNat 12

/-- Python `str.strip()`. -/
def pyStrip (s : String) : String :=
  ⟨((s.data.dropWhile isPySpace).reverse.dropWhile isPySpace).reverse⟩

/-- Decimal value of a digit string. -/
def digitsVal (l : List Char) : ℕ :=
  l.foldl (fun a c => 10 * a + (c.toNat - 48)) 0

/-- Full match of one group `\d+(\.\d+)?` of the custom-ratio regex, together
with the exact value `float(group)` denotes (floats idealized as rationals). -/
def parseNumLit (l : List Char) : Option ℚ :=
  if (l.takeWhile Char.isDigit).isEmpty then none
  else
    match l.dropWhile Char.isDigit with
    | [] => some (digitsVal (l.takeWhile Char.isDigit) : ℚ)
    | c :: fs =>
        if c = '.' then
          if fs ≠ [] && fs.all Char.isDigit then
            some ((digitsVal (l.takeWhile Char.isDigit) : ℚ) +
              (digitsVal fs : ℚ) / 10 ^ fs.length)
          else none
        else none

/-- Split a character list at its first `':'`. -/
def splitFirstColon : List Char → Option (List Char × List Char)
  | [] => none
  | c :: cs =>
      if c = ':' then some ([], cs)
      else (splitFirstColon cs).map (fun p => (c :: p.1, p.2))

/-- Full-match semantics of `^(\d+(?:\.\d+)?):(\d+(?:\.\d+)?)$`: the numeric
values of the two groups when the whole string matches.  (Each group contains
no `':'`, so the single separating colon is the first colon of the string.) -/
def matchRatioChars (l : List Char) : Option (ℚ × ℚ) :=
  match splitFirstColon l with
  | none => none
  | some (a, b) =>
      match parseNumLit a, parseNumLit b with
      | some x, some y => some (x, y)
      | _, _ => none

/-- Prefix-match semantics of `^(\d+):(\d+)` (the dropdown regex is not
anchored at the end): the two leading integer groups. -/
def matchDropdownChars (l : List Char) : Option (ℕ × ℕ) :=
  let ds := l.takeWhile Char.isDigit
  if ds.isEmpty then none
  else
    match l.drop ds.length with
    | ':' :: rest =>
        let hs := rest.takeWhile Char.isDigit
        if hs.isEmpty then none else some (digitsVal ds, digitsVal hs)
    | _ => none

/-- `DimensionSourceCalculator._parse_custom_aspect_ratio`. -/
def parse_custom_aspect_ratio (text : String) : Except PyErr ArInfo :=
  match matchRatioChars (pyStrip text).data with
  | some (w, h) =>
      if h = 0 then .error .floatZeroDiv
      else .ok ⟨w / h, w, h, some "custom_ratio"⟩
  | none => .ok ⟨16 / 9, 16, 9, some "fallback"⟩

/-- `DimensionSourceCalculator._parse_dropdown_aspect_ratio`. -/
def parse_dropdown_aspect_ratio (value : String) : Except PyErr ArInfo :=
  match matchDropdownChars value.data with
  | some (w, h) =>
      if (h : ℚ) = 0 then .error .floatZeroDiv
      else .ok ⟨(w : ℚ) / (h : ℚ), (w : ℚ), (h : ℚ), some "dropdown"⟩
  | none => .ok ⟨16 / 9, 16, 9, some "fallback"⟩

/-- `DimensionSourceCalculator._get_active_aspect_ratio`. -/
def get_active_aspect_ratio (w : Widgets) : Except PyErr ArInfo :=
  if w.custom_ratio_enabled then
    parse_custom_aspect_ratio (w.custom_aspect_ratio.getD "1:1")
  else
    parse_dropdown_aspect_ratio (w.aspect_ratio_dropdown.getD "16:9 (HD Video/YouTube/TV)")

/-- `DimensionSourceCalculator._compute_ar_from_dimensions`.  `math.gcd` of two
zeros is `0` and the following `//` raises; a zero height raises at the float
division `w / h`. -/
def compute_ar_from_dimensions (w h : ℤ) : Except PyErr ArInfo :=
  let divisor : ℤ := Int.gcd w h
  if divisor = 0 then .error .intZeroDiv
  else if h = 0 then .error .floatZeroDiv
  else .ok ⟨(w : ℚ) / (h : ℚ), (w.fdiv divisor : ℚ), (h.fdiv divisor : ℚ), none⟩

/-- `DimensionSourceCalculator._detect_conflicts`. -/
def detect_conflicts (active_mode : String) (w : Widgets) : List Conflict :=
  (if active_mode = "exact_dims" then
    (if w.width_enabled || w.height_enabled then
      [⟨"exact_dims_overrides_widgets", "info",
        "⚠️ Exact Dims mode ignores WIDTH/HEIGHT toggles",
        ["dimension_width", "dimension_height"]⟩]
    else []) ++
    (if w.mp_enabled then
      [⟨"exact_dims_overrides_mp", "info",
        "⚠️ Exact Dims mode ignores MEGAPIXEL setting",
        ["dimension_megapixel"]⟩]
    else [])
  else []) ++
  (if active_mode = "mp_scalar_with_ar" then
    (if w.custom_ratio_enabled then
      [⟨"mp_scalar_overrides_custom_ar", "warning",
        "⚠️ WIDTH+HEIGHT creates explicit AR, overriding custom_ratio",
        ["custom_ratio", "custom_aspect_ratio"]⟩]
    else []) ++
    (if w.image_mode_enabled && w.image_mode_value == some 0 then
      [⟨"mp_scalar_overrides_image_ar", "warning",
        "⚠️ WIDTH+HEIGHT creates explicit AR, overriding image AR",
        ["image_mode"]⟩]
    else [])
  else []) ++
  (if active_mode = "width_height_explicit" ∨ active_mode = "mp_width_explicit"
      ∨ active_mode = "mp_height_explicit" then
    (if w.custom_ratio_enabled then
      [⟨"explicit_dims_overrides_custom_ar", "warning",
        "⚠️ Explicit dimensions create implied AR, overriding custom_ratio",
        ["custom_ratio", "custom_aspect_ratio"]⟩]
    else []) ++
    (if w.image_mode_enabled && w.image_mode_value == some 0 then
      [⟨"explicit_dims_overrides_image_ar", "warning",
        "⚠️ Explicit dimensions create implied AR, overriding image AR",
        ["image_mode"]⟩]
    else []) ++
    [⟨"explicit_dims_overrides_dropdown_ar", "info",
      "⚠️ Explicit dimensions create implied AR, ignoring dropdown",
      ["aspect_ratio"]⟩]
  else []) ++
  (if active_mode = "ar_only" then
    (if w.custom_ratio_enabled then
      [⟨"ar_only_overrides_custom", "warning",
        "⚠️ AR Only mode uses image AR, overriding custom_ratio",
        ["custom_ratio", "custom_aspect_ratio"]⟩]
    else [])
  else [])

/-- Priority 6: `DimensionSourceCalculator._calculate_defaults`. -/
def calculate_defaults (w : Widgets) : Except PyErr Result := do
  let ar ← get_active_aspect_ratio w
  let default_mp : ℚ := 1000000
  if ar.ratio = 0 then .error .floatZeroDiv
  else if default_mp / ar.ratio < 0 then .error .mathDomain
  else
    .ok ⟨"defaults_with_ar", 6, rsqrtScaled default_mp ar.ratio,
      rsqrtNearest (default_mp / ar.ratio), "defaults", ar, [],
      "Defaults: 1.0MP with AR " ++ toString ar.aspectW ++ ":" ++
        toString ar.aspectH ++ " (" ++ toString ar.source ++ ")", []⟩

/-- Priority 1: `DimensionSourceCalculator._calculate_exact_dims`. -/
def calculate_exact_dims (w : Widgets) (rc : RuntimeContext) : Except PyErr Result :=
  match rc.image_info with
  | none => calculate_defaults w
  | some info => do
      let ar ← compute_ar_from_dimensions info.width info.height
      .ok ⟨"exact_dims", 1, info.width, info.height, "image", ar,
        detect_conflicts "exact_dims" w,
        "USE IMAGE DIMS = Exact Dims (overrides all widgets)", []⟩

/-- Priority 2: `DimensionSourceCalculator._calculate_mp_scalar_with_ar`. -/
def calculate_mp_scalar_with_ar (w : Widgets) : Except PyErr Result := do
  let wv ← req w.width_value "width_value"
  let hv ← req w.height_value "height_value"
  let mpv ← req w.mp_value "mp_value"
  let target_mp : ℚ := mpv * 1000000
  let ar ← compute_ar_from_dimensions wv hv
  if ar.ratio = 0 then .error .floatZeroDiv
  else if target_mp / ar.ratio < 0 then .error .mathDomain
  else
    .ok ⟨"mp_scalar_with_ar", 2, rsqrtScaled target_mp ar.ratio,
      rsqrtNearest (target_mp / ar.ratio), "widgets_mp_scalar", ar,
      detect_conflicts "mp_scalar_with_ar" w,
      "MP+W+H: AR " ++ toString ar.aspectW ++ ":" ++ toString ar.aspectH ++
        " from " ++ toString wv ++ "×" ++ toString hv ++ ", scaled to " ++
        toString mpv ++ "MP", ["WIDTH", "HEIGHT", "MEGAPIXEL"]⟩

/-- Priority 3a: `DimensionSourceCalculator._calculate_width_height_explicit`. -/
def calculate_width_height_explicit (w : Widgets) : Except PyErr Result := do
  let wv ← req w.width_value "width_value"
  let hv ← req w.height_value "height_value"
  let ar ← compute_ar_from_dimensions wv hv
  .ok ⟨"width_height_explicit", 3, wv, hv, "widgets_explicit", ar,
    detect_conflicts "width_height_explicit" w,
    "Explicit dimensions: " ++ toString wv ++ "×" ++ toString hv ++ " (AR " ++
      toString ar.aspectW ++ ":" ++ toString ar.aspectH ++ " implied)",
    ["WIDTH", "HEIGHT"]⟩

/-- The guard of the single `logger.warning` call of
`_calculate_mp_width_explicit` (source line 219): fired iff `w <= 0`. -/
def mp_width_fallback_warning (wv : ℤ) : Bool := wv ≤ 0

/-- Priority 3b: `DimensionSourceCalculator._calculate_mp_width_explicit`. -/
def calculate_mp_width_explicit (w : Widgets) : Except PyErr Result := do
  let wv ← req w.width_value "width_value"
  let mpv ← req w.mp_value "mp_value"
  let target_mp : ℚ := mpv * 1000000
  let hv : ℤ := if 0 < wv then pyRound (target_mp / (wv : ℚ)) else 1080
  let ar ← compute_ar_from_dimensions wv hv
  .ok ⟨"mp_width_explicit", 3, wv, hv, "widgets_mp_computed", ar,
    detect_conflicts "mp_width_explicit" w,
    "MP+W: " ++ toString wv ++ "×" ++ toString hv ++ " (H computed from " ++
      toString mpv ++ "MP, AR " ++ toString ar.aspectW ++ ":" ++
      toString ar.aspectH ++ " implied)", ["WIDTH", "MEGAPIXEL"]⟩

/-- Priority 3c: `DimensionSourceCalculator._calculate_mp_height_explicit`. -/
def calculate_mp_height_explicit (w : Widgets) : Except PyErr Result := do
  let hv ← req w.height_value "height_value"
  let mpv ← req w.mp_value "mp_value"
  let target_mp : ℚ := mpv * 1000000
  let wv : ℤ := if 0 < hv then pyRound (target_mp / (hv : ℚ)) else 1920
  let ar ← compute_ar_from_dimensions wv hv
  .ok ⟨"mp_height_explicit", 3, wv, hv, "widgets_mp_computed", ar,
    detect_conflicts "mp_height_explicit" w,
    "MP+H: " ++ toString wv ++ "×" ++ toString hv ++ " (W computed from " ++
      toString mpv ++ "MP, AR " ++ toString ar.aspectW ++ ":" ++
      toString ar.aspectH ++ " implied)", ["HEIGHT", "MEGAPIXEL"]⟩

/-- The result dict assembled at the end of `_calculate_ar_only` (the fields
common to its four sub-branches). -/
def ar_only_result (w : Widgets) (info : ImageInfo) (image_ar : ArInfo)
    (bw bh : ℤ) (dimension_source : String) : Result :=
  ⟨"ar_only", 4, bw, bh, "image_ar", image_ar,
    detect_conflicts "ar_only" w,
    dimension_source ++ " & image_ar: " ++ toString image_ar.aspectW ++
      ":" ++ toString image_ar.aspectH ++ " (" ++ toString info.width ++
      "×" ++ toString info.height ++ ")",
    if dimension_source ≠ "defaults" then [dimension_source] else []⟩

/-- Priority 4: `DimensionSourceCalculator._calculate_ar_only`. -/
def calculate_ar_only (w : Widgets) (rc : RuntimeContext) : Except PyErr Result :=
  match rc.image_info with
  | none => calculate_defaults w
  | some info => do
      let image_ar ← compute_ar_from_dimensions info.width info.height
      if w.width_enabled then do
        let wv ← req w.width_value "width_value"
        if image_ar.ratio = 0 then .error .floatZeroDiv
        else .ok (ar_only_result w info image_ar wv
          (pyRound ((wv : ℚ) / image_ar.ratio)) "WIDTH")
      else if w.height_enabled then do
        let hv ← req w.height_value "height_value"
        .ok (ar_only_result w info image_ar
          (pyRound ((hv : ℚ) * image_ar.ratio)) hv "HEIGHT")
      else if w.mp_enabled then do
        let mpv ← req w.mp_value "mp_value"
        let target_mp : ℚ := mpv * 1000000
        if image_ar.ratio = 0 then .error .floatZeroDiv
        else if target_mp / image_ar.ratio < 0 then .error .mathDomain
        else .ok (ar_only_result w info image_ar
          (rsqrtScaled target_mp image_ar.ratio)
          (rsqrtNearest (target_mp / image_ar.ratio)) "MEGAPIXEL")
      else
        let default_mp : ℚ := 1000000
        if image_ar.ratio = 0 then .error .floatZeroDiv
        else if default_mp / image_ar.ratio < 0 then .error .mathDomain
        else .ok (ar_only_result w info image_ar
          (rsqrtScaled default_mp image_ar.ratio)
          (rsqrtNearest (default_mp / image_ar.ratio)) "defaults")

/-- Priority 5a: `DimensionSourceCalculator._calculate_width_with_ar`. -/
def calculate_width_with_ar (w : Widgets) : Except PyErr Result := do
  let wv ← req w.width_value "width_value"
  let ar ← get_active_aspect_ratio w
  if ar.ratio = 0 then .error .floatZeroDiv
  else
    .ok ⟨"width_with_ar", 5, wv, pyRound ((wv : ℚ) / ar.ratio),
      "widget_with_ar", ar, detect_conflicts "width_with_ar" w,
      "WIDTH " ++ toString wv ++ " with AR " ++ toString ar.aspectW ++ ":" ++
        toString ar.aspectH ++ " (" ++ toString ar.source ++ ")", ["WIDTH"]⟩

/-- Priority 5b: `DimensionSourceCalculator._calculate_height_with_ar`. -/
def calculate_height_with_ar (w : Widgets) : Except PyErr Result := do
  let hv ← req w.height_value "height_value"
  let ar ← get_active_aspect_ratio w
  .ok ⟨"height_with_ar", 5, pyRound ((hv : ℚ) * ar.ratio), hv,
    "widget_with_ar", ar, detect_conflicts "height_with_ar" w,
    "HEIGHT " ++ toString hv ++ " with AR " ++ toString ar.aspectW ++ ":" ++
      toString ar.aspectH ++ " (" ++ toString ar.source ++ ")", ["HEIGHT"]⟩

/-- Priority 5c: `DimensionSourceCalculator._calculate_mp_with_ar`. -/
def calculate_mp_with_ar (w : Widgets) : Except PyErr Result := do
  let mpv ← req w.mp_value "mp_value"
  let target_mp : ℚ := mpv * 1000000
  let ar ← get_active_aspect_ratio w
  if ar.ratio = 0 then .error .floatZeroDiv
  else if target_mp / ar.ratio < 0 then .error .mathDomain
  else
    .ok ⟨"mp_with_ar", 5, rsqrtScaled target_mp ar.ratio,
      rsqrtNearest (target_mp / ar.ratio), "widget_with_ar", ar,
      detect_conflicts "mp_with_ar" w,
      "MEGAPIXEL " ++ toString mpv ++ "MP with AR " ++ toString ar.aspectW ++
        ":" ++ toString ar.aspectH ++ " (" ++ toString ar.source ++ ")",
      ["MEGAPIXEL"]⟩

/-- `DimensionSourceCalculator.calculate_dimension_source`: the priority
dispatcher. -/
def calculate_dimension_source (w : Widgets) (rc : RuntimeContext := {}) :
    Except PyErr Result :=
  if w.image_mode_enabled && w.image_mode_value == some 1 then
    calculate_exact_dims w rc
  else if w.mp_enabled && w.width_enabled && w.height_enabled then
    calculate_mp_scalar_with_ar w
  else if w.width_enabled && w.height_enabled then
    calculate_width_height_explicit w
  else if w.mp_enabled && w.width_enabled then
    calculate_mp_width_explicit w
  else if w.mp_enabled && w.height_enabled then
    calculate_mp_height_explicit w
  else if w.image_mode_enabled && w.image_mode_value == some 0 then
    calculate_ar_only w rc
  else if w.width_enabled then
    calculate_width_with_ar w
  else if w.height_enabled then
    calculate_height_with_ar w
  else if w.mp_enabled then
    calculate_mp_with_ar w
  else
    calculate_defaults w

/-- The response of `SmartResolutionCalc.calculate_dimensions_api`: either the
calculator result augmented with `success: True`, or
`{'success': False, 'error': str(e)}`. -/
inductive ApiResponse where
  | success (result : Result)
  | failure (error : String)
  deriving DecidableEq, Repr

/-- `SmartResolutionCalc.calculate_dimensions_api`: wraps the calculator call
in `try/except Exception`, so no exception propagates (the embedding is a
total function into `ApiResponse`). -/
def calculate_dimensions_api (w : Widgets) (rc : RuntimeContext := {}) : ApiResponse :=
  match calculate_dimension_source w rc with
  | .ok r => .success r
  | .error e => .failure e.message

/-! ## Numeric lemmas for the rounding helpers -/

/-- Value of `pyRound` away from the tie point. -/
theorem pyRound_eq {q : ℚ} {k : ℤ} (h1 : (k : ℚ) - 1/2 < q) (h2 : q < (k : ℚ) + 1/2) :
    pyRound q = k := by
  unfold pyRound
  rcases le_or_lt (k : ℚ) q with hk | hk
  · have hf : ⌊q⌋ = k := by
      rw [Int.floor_eq_iff]
      refine ⟨by exact_mod_cast hk, ?_⟩
      have : q < (k : ℚ) + 1 := lt_trans h2 (by linarith)
      exact_mod_cast this
    rw [hf]
    split_ifs with ha hb hc
    · rfl
    · exfalso; linarith
    · rfl
    · exfalso; linarith
  · have hf : ⌊q⌋ = k - 1 := by
      rw [Int.floor_eq_iff]
      push_cast
      exact ⟨by linarith, by linarith⟩
    rw [hf]
    push_cast
    split_ifs with ha hb hc
    · exfalso; linarith
    · ring
    · exfalso; linarith
    · exfalso; linarith

/-- `pyRound` of anything above one half is at least `1`. -/
theorem one_le_pyRound {q : ℚ} (h : 1/2 < q) : 1 ≤ pyRound q := by
  unfold pyRound
  have hq0 : (0 : ℚ) ≤ q := by linarith
  have hf0 : 0 ≤ ⌊q⌋ := Int.floor_nonneg.2 hq0
  have hfle : (⌊q⌋ : ℚ) ≤ q := Int.floor_le q
  split_ifs with hb1 hb2 hb3
  · by_contra hcon
    have hle : ⌊q⌋ ≤ 0 := by omega
    have : (⌊q⌋ : ℚ) ≤ 0 := by exact_mod_cast hle
    linarith
  · omega
  · by_contra hcon
    have hle : ⌊q⌋ ≤ 0 := by omega
    have hfq : (⌊q⌋ : ℚ) ≤ 0 := by exact_mod_cast hle
    have htie : q - (⌊q⌋ : ℚ) = 1/2 := le_antisymm (not_lt.1 hb2) (not_lt.1 hb1)
    linarith
  · omega

/-- `Nat.sqrt` from a two-sided bound. -/
theorem natSqrt_eq_of {n k : ℕ} (h1 : k * k ≤ n) (h2 : n < (k + 1) * (k + 1)) :
    Nat.sqrt n = k :=
  le_antisymm (Nat.lt_succ_iff.mp (Nat.sqrt_lt.2 h2)) (Nat.le_sqrt.2 h1)

/-- Value of `rsqrtNearest` away from the tie points: if
`(k - 1/2)^2 < q < (k + 1/2)^2` with `1 ≤ k` then the rounded square root is
`k`. -/
theorem rsqrtNearest_eq {q : ℚ} {k : ℤ} (hk : 1 ≤ k)
    (h1 : (2 * (k : ℚ) - 1) ^ 2 / 4 < q)
    (h2 : q < (2 * (k : ℚ) + 1) ^ 2 / 4) :
    rsqrtNearest q = k := by
  have hkq : (1 : ℚ) ≤ (k : ℚ) := by exact_mod_cast hk
  have hq0 : (0 : ℚ) ≤ q := by nlinarith
  have hfq0 : 0 ≤ ⌊q⌋ := Int.floor_nonneg.2 hq0
  have hmz : ((⌊q⌋.toNat : ℤ)) = ⌊q⌋ := Int.toNat_of_nonneg hfq0
  unfold rsqrtNearest
  rcases le_or_lt ((k : ℚ) ^ 2) q with hcase | hcase
  · -- integer part of √q is k
    have hs : Nat.sqrt ⌊q⌋.toNat = k.toNat := by
      have ek : ((k.toNat : ℤ)) = k := Int.toNat_of_nonneg (by omega)
      apply natSqrt_eq_of
      · have hik : k ^ 2 ≤ ⌊q⌋ := Int.le_floor.2 (by push_cast; nlinarith)
        zify
        rw [ek, hmz]
        nlinarith
      · have hub : q < ((k : ℚ) + 1) ^ 2 := by nlinarith
        have hik : ⌊q⌋ < (k + 1) ^ 2 := Int.floor_lt.2 (by push_cast; linarith)
        zify
        rw [ek, hmz]
        nlinarith
    rw [hs]
    have ek : ((k.toNat : ℤ)) = k := Int.toNat_of_nonneg (by omega)
    rw [ek]
    split_ifs with hb1 hb2 hb3
    · rfl
    · exfalso; push_cast at hb2; linarith
    · exfalso; push_cast at hb1; linarith
    · exfalso; push_cast at hb1; linarith
  · -- integer part of √q is k - 1
    have hs : Nat.sqrt ⌊q⌋.toNat = (k - 1).toNat := by
      have ek : (((k - 1).toNat : ℤ)) = k - 1 := Int.toNat_of_nonneg (by omega)
      apply natSqrt_eq_of
      · have hlb : ((k : ℚ) - 1) ^ 2 ≤ (2 * (k : ℚ) - 1) ^ 2 / 4 := by nlinarith
        have hik : (k - 1) ^ 2 ≤ ⌊q⌋ := Int.le_floor.2 (by push_cast; linarith)
        zify
        rw [ek, hmz]
        nlinarith
      · have hik : ⌊q⌋ < k ^ 2 := Int.floor_lt.2 (by push_cast; linarith)
        zify
        rw [ek, hmz]
        nlinarith
    rw [hs]
    have ek : (((k - 1).toNat : ℤ)) = k - 1 := Int.toNat_of_nonneg (by omega)
    rw [ek]
    split_ifs with hb1 hb2 hb3
    · exfalso; push_cast at hb1; nlinarith
    · omega
    · exfalso
      push_cast at hb1 hb2
      nlinarith
    · exfalso
      push_cast at hb1 hb2
      nlinarith

/-- `rsqrtNearest` of anything above one quarter is at least `1`. -/
theorem one_le_rsqrtNearest {q : ℚ} (h : 1/4 < q) : 1 ≤ rsqrtNearest q := by
  unfold rsqrtNearest
  have hn0nn : (0 : ℤ) ≤ (Nat.sqrt ⌊q⌋.toNat : ℤ) := by positivity
  split_ifs with hb1 hb2 hb3
  · by_contra hcon
    have h0 : (Nat.sqrt ⌊q⌋.toNat : ℤ) = 0 := by omega
    rw [h0] at hb1
    norm_num at hb1
    linarith
  · omega
  · by_contra hcon
    have h0 : (Nat.sqrt ⌊q⌋.toNat : ℤ) = 0 := by omega
    rw [h0] at hb1 hb2
    norm_num at hb1 hb2
    linarith
  · omega

/-- For a positive ratio, `rsqrtScaled` is just the rounded square root of the
product. -/
theorem rsqrtScaled_of_pos {t r : ℚ} (hr : 0 < r) :
    rsqrtScaled t r = rsqrtNearest (t * r) := by
  unfold rsqrtScaled
  rw [if_neg (not_lt.2 (le_of_lt hr))]

/-! ## Basic reduction lemmas for the `Except` embedding -/

theorem bind_ok_eq {α β : Type} (a : α) (f : α → Except PyErr β) :
    (Except.ok a >>= f) = f a := rfl

theorem bind_error_eq {α β : Type} (e : PyErr) (f : α → Except PyErr β) :
    ((Except.error e : Except PyErr α) >>= f) = .error e := rfl

theorem req_some {α : Type} (v : α) (k : String) : req (some v) k = .ok v := rfl

theorem req_none {α : Type} (k : String) :
    req (none : Option α) k = .error (.keyError k) := rfl

/-! ## Aspect-ratio parser lemmas -/

/-- Both parsed components are positive (vacuous when the pattern does not
match).  This is the well-formedness condition on custom-ratio text under
which no division by zero can occur downstream. -/
def ratioComponentsPos : Option (ℚ × ℚ) → Prop
  | some p => 0 < p.1 ∧ 0 < p.2
  | none => True

instance (o : Option (ℚ × ℚ)) : Decidable (ratioComponentsPos o) :=
  match o with
  | some p => inferInstanceAs (Decidable (0 < p.1 ∧ 0 < p.2))
  | none => .isTrue trivial

/-- Both parsed dropdown components are positive (vacuous when the prefix
pattern does not match). -/
def dropdownComponentsPos : Option (ℕ × ℕ) → Prop
  | some p => 0 < p.1 ∧ 0 < p.2
  | none => True

instance (o : Option (ℕ × ℕ)) : Decidable (dropdownComponentsPos o) :=
  match o with
  | some p => inferInstanceAs (Decidable (0 < p.1 ∧ 0 < p.2))
  | none => .isTrue trivial

/-- The custom-ratio text actually consulted by the resolver for widget
state `w`. -/
def activeCustomText (w : Widgets) : String :=
  w.custom_aspect_ratio.getD "1:1"

/-- The dropdown label actually consulted by the resolver for widget state
`w`. -/
def activeDropdownText (w : Widgets) : String :=
  w.aspect_ratio_dropdown.getD "16:9 (HD Video/YouTube/TV)"

/-- Well-formedness of the ratio text a widget state can put in play. -/
def RatioTextOk (w : Widgets) : Prop :=
  ratioComponentsPos (matchRatioChars (pyStrip (activeCustomText w)).data) ∧
  dropdownComponentsPos (matchDropdownChars (activeDropdownText w).data)

instance (w : Widgets) : Decidable (RatioTextOk w) :=
  inferInstanceAs (Decidable (_ ∧ _))

/-- Under well-formed ratio text, the active aspect ratio resolves without an
exception and carries a positive ratio. -/
theorem get_active_aspect_ratio_ok {w : Widgets} (hok : RatioTextOk w) :
    ∃ ar, get_active_aspect_ratio w = .ok ar ∧ 0 < ar.ratio := by
  obtain ⟨hc, hd⟩ := hok
  simp only [activeCustomText, activeDropdownText] at hc hd
  unfold get_active_aspect_ratio parse_custom_aspect_ratio parse_dropdown_aspect_ratio
  by_cases hce : w.custom_ratio_enabled
  · simp only [hce, if_true]
    rcases hm : matchRatioChars (pyStrip (w.custom_aspect_ratio.getD "1:1")).data with _ | ⟨a, b⟩
    · exact ⟨_, rfl, by norm_num⟩
    · rw [hm] at hc
      have hab : 0 < a ∧ 0 < b := hc
      dsimp only
      rw [if_neg (ne_of_gt hab.2)]
      exact ⟨_, rfl, div_pos hab.1 hab.2⟩
  · simp only [hce, if_false, Bool.false_eq_true]
    rcases hm : matchDropdownChars (w.aspect_ratio_dropdown.getD "16:9 (HD Video/YouTube/TV)").data with _ | ⟨a, b⟩
    · exact ⟨_, rfl, by norm_num⟩
    · rw [hm] at hd
      have hab : 0 < a ∧ 0 < b := hd
      have haq : (0 : ℚ) < (a : ℚ) := by exact_mod_cast hab.1
      have hbq : (0 : ℚ) < (b : ℚ) := by exact_mod_cast hab.2
      dsimp only
      rw [if_neg (ne_of_gt hbq)]
      exact ⟨_, rfl, div_pos haq hbq⟩

/-! ## `compute_ar_from_dimensions` lemmas -/

/-- For a nonzero height, the GCD reduction succeeds and returns the exact
ratio together with the floor-divided components. -/
theorem compute_ar_eq {w h : ℤ} (hh : h ≠ 0) :
    compute_ar_from_dimensions w h =
      .ok ⟨(w : ℚ) / (h : ℚ), ((w.fdiv (Int.gcd w h) : ℤ) : ℚ),
           ((h.fdiv (Int.gcd w h) : ℤ) : ℚ), none⟩ := by
  unfold compute_ar_from_dimensions
  have hg : ((Int.gcd w h : ℤ)) ≠ 0 := by
    simp only [ne_eq, Int.natCast_eq_zero, Int.gcd_eq_zero_iff, not_and]
    intro _
    exact hh
  rw [if_neg hg, if_neg hh]

theorem calculate_defaults_spec {w : Widgets} {ar : ArInfo}
    (har : get_active_aspect_ratio w = .ok ar) (hr : 0 < ar.ratio) :
    ∃ r, calculate_defaults w = .ok r ∧ r.mode = "defaults_with_ar" ∧ r.priority = 6 ∧
      r.baseW = rsqrtNearest (1000000 * ar.ratio) ∧
      r.baseH = rsqrtNearest (1000000 / ar.ratio) ∧ r.ar = ar ∧ r.conflicts = [] := by
  unfold calculate_defaults
  rw [har, bind_ok_eq]
  dsimp only
  rw [if_neg (ne_of_gt hr), if_neg (not_lt.2 (le_of_lt (div_pos (by norm_num) hr)))]
  exact ⟨_, rfl, rfl, rfl, rsqrtScaled_of_pos hr, rfl, rfl, rfl⟩

theorem calculate_defaults_shape {w : Widgets} {r : Result}
    (h : calculate_defaults w = .ok r) :
    r.mode = "defaults_with_ar" ∧ r.priority = 6 ∧ r.conflicts = [] := by
  unfold calculate_defaults at h
  rcases hga : get_active_aspect_ratio w with e | ar
  · rw [hga, bind_error_eq] at h
    cases h
  · rw [hga, bind_ok_eq] at h
    dsimp only at h
    split_ifs at h <;> cases h
    exact ⟨rfl, rfl, rfl⟩

theorem calculate_exact_dims_no_image {w : Widgets} {rc : RuntimeContext}
    (hi : rc.image_info = none) :
    calculate_exact_dims w rc = calculate_defaults w := by
  unfold calculate_exact_dims
  rw [hi]

theorem calculate_exact_dims_spec {w : Widgets} {rc : RuntimeContext}
    {info : ImageInfo} {ar : ArInfo} (hi : rc.image_info = some info)
    (har : compute_ar_from_dimensions info.width info.height = .ok ar) :
    ∃ r, calculate_exact_dims w rc = .ok r ∧ r.mode = "exact_dims" ∧
      r.priority = 1 ∧ r.baseW = info.width ∧ r.baseH = info.height ∧
      r.ar = ar := by
  unfold calculate_exact_dims
  rw [hi]
  dsimp only
  rw [har, bind_ok_eq]
  exact ⟨_, rfl, rfl, rfl, rfl, rfl, rfl⟩

theorem calculate_exact_dims_shape {w : Widgets} {rc : RuntimeContext} {r : Result}
    (h : calculate_exact_dims w rc = .ok r) :
    (r.mode = "exact_dims" ∧ r.priority = 1) ∨
      (r.priority = 6 ∧ r.conflicts = []) := by
  unfold calculate_exact_dims at h
  rcases hi : rc.image_info with _ | info
  · rw [hi] at h
    exact Or.inr (calculate_defaults_shape h).2
  · rw [hi] at h
    dsimp only at h
    rcases hca : compute_ar_from_dimensions info.width info.height with e | ar
    · rw [hca, bind_error_eq] at h
      cases h
    · rw [hca, bind_ok_eq] at h
      cases h
      exact Or.inl ⟨rfl, rfl⟩

theorem detect_conflicts_width_ar (w : Widgets) :
    detect_conflicts "width_with_ar" w = [] := rfl

theorem detect_conflicts_height_ar (w : Widgets) :
    detect_conflicts "height_with_ar" w = [] := rfl

theorem detect_conflicts_mp_ar (w : Widgets) :
    detect_conflicts "mp_with_ar" w = [] := rfl

theorem calculate_mp_scalar_with_ar_spec {w : Widgets} {wv hv : ℤ} {mpv : ℚ}
    (h1 : w.width_value = some wv) (h2 : w.height_value = some hv)
    (h3 : w.mp_value = some mpv) (hwv : 0 < wv) (hhv : 0 < hv) (hmp : 0 ≤ mpv) :
    ∃ r, calculate_mp_scalar_with_ar w = .ok r ∧ r.mode = "mp_scalar_with_ar" ∧
      r.priority = 2 ∧
      r.baseW = rsqrtNearest (mpv * 1000000 * ((wv : ℚ) / (hv : ℚ))) ∧
      r.baseH = rsqrtNearest (mpv * 1000000 / ((wv : ℚ) / (hv : ℚ))) ∧
      r.ar = ⟨(wv : ℚ) / (hv : ℚ), ((wv.fdiv (Int.gcd wv hv) : ℤ) : ℚ),
              ((hv.fdiv (Int.gcd wv hv) : ℤ) : ℚ), none⟩ := by
  have hwq : (0 : ℚ) < (wv : ℚ) := by exact_mod_cast hwv
  have hhq : (0 : ℚ) < (hv : ℚ) := by exact_mod_cast hhv
  have hrq : (0 : ℚ) < (wv : ℚ) / (hv : ℚ) := div_pos hwq hhq
  unfold calculate_mp_scalar_with_ar
  rw [h1, req_some, bind_ok_eq, h2, req_some, bind_ok_eq, h3, req_some, bind_ok_eq]
  dsimp only
  rw [compute_ar_eq (ne_of_gt hhv), bind_ok_eq]
  dsimp only
  rw [if_neg (ne_of_gt hrq),
    if_neg (not_lt.2 (div_nonneg (by positivity) (le_of_lt hrq)))]
  exact ⟨_, rfl, rfl, rfl, rsqrtScaled_of_pos hrq, rfl, rfl⟩

theorem calculate_mp_scalar_with_ar_shape {w : Widgets} {r : Result}
    (h : calculate_mp_scalar_with_ar w = .ok r) :
    r.mode = "mp_scalar_with_ar" ∧ r.priority = 2 := by
  unfold calculate_mp_scalar_with_ar at h
  rcases hw : w.width_value with _ | wv <;> rw [hw] at h <;>
    simp only [req_some, req_none, bind_ok_eq, bind_error_eq] at h
  · cases h
  rcases hh : w.height_value with _ | hv <;> rw [hh] at h <;>
    simp only [req_some, req_none, bind_ok_eq, bind_error_eq] at h
  · cases h
  rcases hm : w.mp_value with _ | mpv <;> rw [hm] at h <;>
    simp only [req_some, req_none, bind_ok_eq, bind_error_eq] at h
  · cases h
  rcases hca : compute_ar_from_dimensions wv hv with e | ar <;>
    rw [hca] at h <;>
    simp only [bind_ok_eq, bind_error_eq] at h
  · cases h
  split_ifs at h <;> cases h
  exact ⟨rfl, rfl⟩

theorem calculate_width_height_explicit_spec {w : Widgets} {wv hv : ℤ}
    (h1 : w.width_value = some wv) (h2 : w.height_value = some hv)
    (hhv : hv ≠ 0) :
    ∃ r, calculate_width_height_explicit w = .ok r ∧
      r.mode = "width_height_explicit" ∧ r.priority = 3 ∧
      r.baseW = wv ∧ r.baseH = hv ∧
      r.ar = ⟨(wv : ℚ) / (hv : ℚ), ((wv.fdiv (Int.gcd wv hv) : ℤ) : ℚ),
              ((hv.fdiv (Int.gcd wv hv) : ℤ) : ℚ), none⟩ := by
  unfold calculate_width_height_explicit
  rw [h1, req_some, bind_ok_eq, h2, req_some, bind_ok_eq,
    compute_ar_eq hhv, bind_ok_eq]
  exact ⟨_, rfl, rfl, rfl, rfl, rfl, rfl⟩

theorem calculate_width_height_explicit_shape {w : Widgets} {r : Result}
    (h : calculate_width_height_explicit w = .ok r) :
    r.mode = "width_height_explicit" ∧ r.priority = 3 := by
  unfold calculate_width_height_explicit at h
  rcases hw : w.width_value with _ | wv <;> rw [hw] at h <;>
    simp only [req_some, req_none, bind_ok_eq, bind_error_eq] at h
  · cases h
  rcases hh : w.height_value with _ | hv <;> rw [hh] at h <;>
    simp only [req_some, req_none, bind_ok_eq, bind_error_eq] at h
  · cases h
  rcases hca : compute_ar_from_dimensions wv hv with e | ar <;>
    rw [hca] at h <;> simp only [bind_ok_eq, bind_error_eq] at h
  · cases h
  cases h
  exact ⟨rfl, rfl⟩

theorem calculate_mp_width_explicit_spec_pos {w : Widgets} {wv : ℤ} {mpv : ℚ}
    (h1 : w.width_value = some wv) (h3 : w.mp_value = some mpv)
    (hwv : 0 < wv) (hnz : pyRound (mpv * 1000000 / (wv : ℚ)) ≠ 0) :
    ∃ r, calculate_mp_width_explicit w = .ok r ∧ r.mode = "mp_width_explicit" ∧
      r.priority = 3 ∧ r.baseW = wv ∧
      r.baseH = pyRound (mpv * 1000000 / (wv : ℚ)) ∧
      compute_ar_from_dimensions wv (pyRound (mpv * 1000000 / (wv : ℚ))) = .ok r.ar := by
  unfold calculate_mp_width_explicit
  rw [h1, req_some, bind_ok_eq, h3, req_some, bind_ok_eq]
  dsimp only
  rw [if_pos hwv, compute_ar_eq hnz, bind_ok_eq]
  exact ⟨_, rfl, rfl, rfl, rfl, rfl, rfl⟩

theorem calculate_mp_width_explicit_spec_nonpos {w : Widgets} {wv : ℤ} {mpv : ℚ}
    (h1 : w.width_value = some wv) (h3 : w.mp_value = some mpv)
    (hwv : ¬ 0 < wv) :
    ∃ r, calculate_mp_width_explicit w = .ok r ∧ r.mode = "mp_width_explicit" ∧
      r.priority = 3 ∧ r.baseW = wv ∧ r.baseH = 1080 ∧
      mp_width_fallback_warning wv = true := by
  unfold calculate_mp_width_explicit
  rw [h1, req_some, bind_ok_eq, h3, req_some, bind_ok_eq]
  dsimp only
  rw [if_neg hwv, compute_ar_eq (by norm_num : (1080 : ℤ) ≠ 0), bind_ok_eq]
  refine ⟨_, rfl, rfl, rfl, rfl, rfl, ?_⟩
  unfold mp_width_fallback_warning
  simp only [decide_eq_true_eq]
  omega

theorem calculate_mp_width_explicit_shape {w : Widgets} {r : Result}
    (h : calculate_mp_width_explicit w = .ok r) :
    r.mode = "mp_width_explicit" ∧ r.priority = 3 := by
  unfold calculate_mp_width_explicit at h
  rcases hw : w.width_value with _ | wv <;> rw [hw] at h <;>
    simp only [req_some, req_none, bind_ok_eq, bind_error_eq] at h
  · cases h
  rcases hm : w.mp_value with _ | mpv <;> rw [hm] at h <;>
    simp only [req_some, req_none, bind_ok_eq, bind_error_eq] at h
  · cases h
  rcases hca : compute_ar_from_dimensions wv
      (if 0 < wv then pyRound (mpv * 1000000 / (wv : ℚ)) else 1080) with e | ar <;>
    rw [hca] at h <;> simp only [bind_ok_eq, bind_error_eq] at h
  · cases h
  cases h
  exact ⟨rfl, rfl⟩

theorem calculate_mp_height_explicit_spec_pos {w : Widgets} {hv : ℤ} {mpv : ℚ}
    (h2 : w.height_value = some hv) (h3 : w.mp_value = some mpv)
    (hhv : 0 < hv) :
    ∃ r, calculate_mp_height_explicit w = .ok r ∧ r.mode = "mp_height_explicit" ∧
      r.priority = 3 ∧ r.baseW = pyRound (mpv * 1000000 / (hv : ℚ)) ∧
      r.baseH = hv := by
  unfold calculate_mp_height_explicit
  rw [h2, req_some, bind_ok_eq, h3, req_some, bind_ok_eq]
  dsimp only
  rw [if_pos hhv, compute_ar_eq (by omega : hv ≠ 0), bind_ok_eq]
  exact ⟨_, rfl, rfl, rfl, rfl, rfl⟩

theorem calculate_mp_height_explicit_shape {w : Widgets} {r : Result}
    (h : calculate_mp_height_explicit w = .ok r) :
    r.mode = "mp_height_explicit" ∧ r.priority = 3 := by
  unfold calculate_mp_height_explicit at h
  rcases hh : w.height_value with _ | hv <;> rw [hh] at h <;>
    simp only [req_some, req_none, bind_ok_eq, bind_error_eq] at h
  · cases h
  rcases hm : w.mp_value with _ | mpv <;> rw [hm] at h <;>
    simp only [req_some, req_none, bind_ok_eq, bind_error_eq] at h
  · cases h
  rcases hca : compute_ar_from_dimensions
      (if 0 < hv then pyRound (mpv * 1000000 / (hv : ℚ)) else 1920) hv with e | ar <;>
    rw [hca] at h <;> simp only [bind_ok_eq, bind_error_eq] at h
  · cases h
  cases h
  exact ⟨rfl, rfl⟩

theorem calculate_ar_only_no_image {w : Widgets} {rc : RuntimeContext}
    (hi : rc.image_info = none) :
    calculate_ar_only w rc = calculate_defaults w := by
  unfold calculate_ar_only
  rw [hi]

theorem calculate_ar_only_spec_width {w : Widgets} {rc : RuntimeContext}
    {info : ImageInfo} {wv : ℤ} (hi : rc.image_info = some info)
    (hiw : 0 < info.width) (hih : 0 < info.height)
    (hwe : w.width_enabled = true) (h1 : w.width_value = some wv) :
    ∃ r, calculate_ar_only w rc = .ok r ∧ r.mode = "ar_only" ∧ r.priority = 4 ∧
      r.baseW = wv ∧
      r.baseH = pyRound ((wv : ℚ) / ((info.width : ℚ) / (info.height : ℚ))) := by
  have hrq : (0 : ℚ) < (info.width : ℚ) / (info.height : ℚ) :=
    div_pos (by exact_mod_cast hiw) (by exact_mod_cast hih)
  unfold calculate_ar_only
  rw [hi]
  dsimp only
  rw [compute_ar_eq (by omega : info.height ≠ 0), bind_ok_eq]
  dsimp only
  rw [if_pos hwe, h1, req_some, bind_ok_eq, if_neg (ne_of_gt hrq)]
  exact ⟨_, rfl, rfl, rfl, rfl, rfl⟩

theorem calculate_ar_only_spec_height {w : Widgets} {rc : RuntimeContext}
    {info : ImageInfo} {hv : ℤ} (hi : rc.image_info = some info)
    (hih : info.height ≠ 0)
    (hwe : w.width_enabled = false) (hhe : w.height_enabled = true)
    (h2 : w.height_value = some hv) :
    ∃ r, calculate_ar_only w rc = .ok r ∧ r.mode = "ar_only" ∧ r.priority = 4 ∧
      r.baseW = pyRound ((hv : ℚ) * ((info.width : ℚ) / (info.height : ℚ))) ∧
      r.baseH = hv := by
  unfold calculate_ar_only
  rw [hi]
  dsimp only
  rw [compute_ar_eq hih, bind_ok_eq]
  dsimp only
  rw [hwe, if_neg (by simp), if_pos hhe, h2, req_some, bind_ok_eq]
  exact ⟨_, rfl, rfl, rfl, rfl, rfl⟩

theorem calculate_ar_only_spec_mp {w : Widgets} {rc : RuntimeContext}
    {info : ImageInfo} {mpv : ℚ} (hi : rc.image_info = some info)
    (hiw : 0 < info.width) (hih : 0 < info.height)
    (hwe : w.width_enabled = false) (hhe : w.height_enabled = false)
    (hme : w.mp_enabled = true) (h3 : w.mp_value = some mpv) (hmp : 0 ≤ mpv) :
    ∃ r, calculate_ar_only w rc = .ok r ∧ r.mode = "ar_only" ∧ r.priority = 4 ∧
      r.baseW = rsqrtNearest (mpv * 1000000 * ((info.width : ℚ) / (info.height : ℚ))) ∧
      r.baseH = rsqrtNearest (mpv * 1000000 / ((info.width : ℚ) / (info.height : ℚ))) := by
  have hrq : (0 : ℚ) < (info.width : ℚ) / (info.height : ℚ) :=
    div_pos (by exact_mod_cast hiw) (by exact_mod_cast hih)
  unfold calculate_ar_only
  rw [hi]
  dsimp only
  rw [compute_ar_eq (by omega : info.height ≠ 0), bind_ok_eq]
  dsimp only
  rw [hwe, if_neg (by simp), hhe, if_neg (by simp), if_pos hme, h3, req_some,
    bind_ok_eq]
  rw [if_neg (ne_of_gt hrq),
    if_neg (not_lt.2 (div_nonneg (by positivity) (le_of_lt hrq)))]
  exact ⟨_, rfl, rfl, rfl, rsqrtScaled_of_pos hrq, rfl⟩

theorem calculate_ar_only_spec_none {w : Widgets} {rc : RuntimeContext}
    {info : ImageInfo} (hi : rc.image_info = some info)
    (hiw : 0 < info.width) (hih : 0 < info.height)
    (hwe : w.width_enabled = false) (hhe : w.height_enabled = false)
    (hme : w.mp_enabled = false) :
    ∃ r, calculate_ar_only w rc = .ok r ∧ r.mode = "ar_only" ∧ r.priority = 4 ∧
      r.baseW = rsqrtNearest (1000000 * ((info.width : ℚ) / (info.height : ℚ))) ∧
      r.baseH = rsqrtNearest (1000000 / ((info.width : ℚ) / (info.height : ℚ))) := by
  have hrq : (0 : ℚ) < (info.width : ℚ) / (info.height : ℚ) :=
    div_pos (by exact_mod_cast hiw) (by exact_mod_cast hih)
  unfold calculate_ar_only
  rw [hi]
  dsimp only
  rw [compute_ar_eq (by omega : info.height ≠ 0), bind_ok_eq]
  dsimp only
  rw [hwe, if_neg (by simp), hhe, if_neg (by simp), hme, if_neg (by simp)]
  rw [if_neg (ne_of_gt hrq),
    if_neg (not_lt.2 (div_nonneg (by positivity) (le_of_lt hrq)))]
  exact ⟨_, rfl, rfl, rfl, rsqrtScaled_of_pos hrq, rfl⟩

theorem calculate_ar_only_shape {w : Widgets} {rc : RuntimeContext} {r : Result}
    (h : calculate_ar_only w rc = .ok r) :
    (r.mode = "ar_only" ∧ r.priority = 4) ∨
      (r.priority = 6 ∧ r.conflicts = []) := by
  unfold calculate_ar_only at h
  rcases hi : rc.image_info with _ | info
  · rw [hi] at h
    exact Or.inr (calculate_defaults_shape h).2
  · rw [hi] at h
    dsimp only at h
    rcases hca : compute_ar_from_dimensions info.width info.height with e | ar <;>
      rw [hca] at h <;> simp only [bind_ok_eq, bind_error_eq] at h
    · cases h
    left
    rcases hv : w.width_value with _ | v <;>
      rcases hh : w.height_value with _ | v2 <;>
      rcases hm : w.mp_value with _ | v3 <;>
      rw [hv, hh, hm] at h <;>
      simp only [req_some, req_none, bind_ok_eq, bind_error_eq] at h <;>
      split_ifs at h <;> cases h <;> exact ⟨rfl, rfl⟩

theorem calculate_width_with_ar_spec {w : Widgets} {wv : ℤ} {ar : ArInfo}
    (h1 : w.width_value = some wv) (har : get_active_aspect_ratio w = .ok ar)
    (hr : 0 < ar.ratio) :
    ∃ r, calculate_width_with_ar w = .ok r ∧ r.mode = "width_with_ar" ∧
      r.priority = 5 ∧ r.baseW = wv ∧ r.baseH = pyRound ((wv : ℚ) / ar.ratio) ∧
      r.ar = ar ∧ r.conflicts = [] := by
  unfold calculate_width_with_ar
  rw [h1, req_some, bind_ok_eq, har, bind_ok_eq, if_neg (ne_of_gt hr)]
  exact ⟨_, rfl, rfl, rfl, rfl, rfl, rfl, detect_conflicts_width_ar w⟩

theorem calculate_width_with_ar_shape {w : Widgets} {r : Result}
    (h : calculate_width_with_ar w = .ok r) :
    r.mode = "width_with_ar" ∧ r.priority = 5 ∧ r.conflicts = [] := by
  unfold calculate_width_with_ar at h
  rcases hw : w.width_value with _ | wv <;> rw [hw] at h <;>
    simp only [req_some, req_none, bind_ok_eq, bind_error_eq] at h
  · cases h
  rcases hga : get_active_aspect_ratio w with e | ar <;> rw [hga] at h <;>
    simp only [bind_ok_eq, bind_error_eq] at h
  · cases h
  split_ifs at h <;> cases h
  exact ⟨rfl, rfl, detect_conflicts_width_ar w⟩

theorem calculate_height_with_ar_spec {w : Widgets} {hv : ℤ} {ar : ArInfo}
    (h2 : w.height_value = some hv) (har : get_active_aspect_ratio w = .ok ar) :
    ∃ r, calculate_height_with_ar w = .ok r ∧ r.mode = "height_with_ar" ∧
      r.priority = 5 ∧ r.baseW = pyRound ((hv : ℚ) * ar.ratio) ∧ r.baseH = hv ∧
      r.ar = ar ∧ r.conflicts = [] := by
  unfold calculate_height_with_ar
  rw [h2, req_some, bind_ok_eq, har, bind_ok_eq]
  exact ⟨_, rfl, rfl, rfl, rfl, rfl, rfl, detect_conflicts_height_ar w⟩

theorem calculate_height_with_ar_shape {w : Widgets} {r : Result}
    (h : calculate_height_with_ar w = .ok r) :
    r.mode = "height_with_ar" ∧ r.priority = 5 ∧ r.conflicts = [] := by
  unfold calculate_height_with_ar at h
  rcases hh : w.height_value with _ | hv <;> rw [hh] at h <;>
    simp only [req_some, req_none, bind_ok_eq, bind_error_eq] at h
  · cases h
  rcases hga : get_active_aspect_ratio w with e | ar <;> rw [hga] at h <;>
    simp only [bind_ok_eq, bind_error_eq] at h
  · cases h
  cases h
  exact ⟨rfl, rfl, detect_conflicts_height_ar w⟩

theorem calculate_mp_with_ar_spec {w : Widgets} {mpv : ℚ} {ar : ArInfo}
    (h3 : w.mp_value = some mpv) (har : get_active_aspect_ratio w = .ok ar)
    (hr : 0 < ar.ratio) (hmp : 0 ≤ mpv) :
    ∃ r, calculate_mp_with_ar w = .ok r ∧ r.mode = "mp_with_ar" ∧
      r.priority = 5 ∧ r.baseW = rsqrtNearest (mpv * 1000000 * ar.ratio) ∧
      r.baseH = rsqrtNearest (mpv * 1000000 / ar.ratio) ∧ r.ar = ar ∧
      r.conflicts = [] := by
  unfold calculate_mp_with_ar
  rw [h3, req_some, bind_ok_eq, har, bind_ok_eq]
  rw [if_neg (ne_of_gt hr),
    if_neg (not_lt.2 (div_nonneg (by positivity) (le_of_lt hr)))]
  exact ⟨_, rfl, rfl, rfl, rsqrtScaled_of_pos hr, rfl, rfl,
    detect_conflicts_mp_ar w⟩

theorem calculate_mp_with_ar_shape {w : Widgets} {r : Result}
    (h : calculate_mp_with_ar w = .ok r) :
    r.mode = "mp_with_ar" ∧ r.priority = 5 ∧ r.conflicts = [] := by
  unfold calculate_mp_with_ar at h
  rcases hm : w.mp_value with _ | mpv <;> rw [hm] at h <;>
    simp only [req_some, req_none, bind_ok_eq, bind_error_eq] at h
  · cases h
  rcases hga : get_active_aspect_ratio w with e | ar <;> rw [hga] at h <;>
    simp only [bind_ok_eq, bind_error_eq] at h
  · cases h
  split_ifs at h <;> cases h
  exact ⟨rfl, rfl, detect_conflicts_mp_ar w⟩

/-! ## Dispatcher reduction lemmas -/

theorem img_cond_false {w : Widgets} {k : ℤ}
    (hno : ¬(w.image_mode_enabled = true ∧ w.image_mode_value = some k)) :
    (w.image_mode_enabled && w.image_mode_value == some k) = false := by
  rcases he : w.image_mode_enabled
  · simp
  · simp only [Bool.true_and]
    have hv : w.image_mode_value ≠ some k := fun hv => hno ⟨he, hv⟩
    simp [hv]

theorem dispatch_to_exact_dims {w : Widgets} {rc : RuntimeContext}
    (h1 : w.image_mode_enabled = true) (h2 : w.image_mode_value = some 1) :
    calculate_dimension_source w rc = calculate_exact_dims w rc := by
  unfold calculate_dimension_source
  rw [if_pos (by simp [h1, h2])]

theorem dispatch_to_mp_scalar {w : Widgets} {rc : RuntimeContext}
    (hni : (w.image_mode_enabled && w.image_mode_value == some 1) = false)
    (hm : w.mp_enabled = true) (hw : w.width_enabled = true)
    (hh : w.height_enabled = true) :
    calculate_dimension_source w rc = calculate_mp_scalar_with_ar w := by
  unfold calculate_dimension_source
  rw [if_neg (by simp [hni]), if_pos (by simp [hm, hw, hh])]

theorem dispatch_to_width_height {w : Widgets} {rc : RuntimeContext}
    (hni : (w.image_mode_enabled && w.image_mode_value == some 1) = false)
    (hm : w.mp_enabled = false) (hw : w.width_enabled = true)
    (hh : w.height_enabled = true) :
    calculate_dimension_source w rc = calculate_width_height_explicit w := by
  unfold calculate_dimension_source
  rw [if_neg (by simp [hni]), if_neg (by simp [hm]), if_pos (by simp [hw, hh])]

theorem dispatch_to_mp_width {w : Widgets} {rc : RuntimeContext}
    (hni : (w.image_mode_enabled && w.image_mode_value == some 1) = false)
    (hm : w.mp_enabled = true) (hw : w.width_enabled = true)
    (hh : w.height_enabled = false) :
    calculate_dimension_source w rc = calculate_mp_width_explicit w := by
  unfold calculate_dimension_source
  rw [if_neg (by simp [hni]), if_neg (by simp [hh]), if_neg (by simp [hh]),
    if_pos (by simp [hm, hw])]

theorem dispatch_to_mp_height {w : Widgets} {rc : RuntimeContext}
    (hni : (w.image_mode_enabled && w.image_mode_value == some 1) = false)
    (hm : w.mp_enabled = true) (hw : w.width_enabled = false)
    (hh : w.height_enabled = true) :
    calculate_dimension_source w rc = calculate_mp_height_explicit w := by
  unfold calculate_dimension_source
  rw [if_neg (by simp [hni]), if_neg (by simp [hw]), if_neg (by simp [hw]),
    if_neg (by simp [hw]), if_pos (by simp [hm, hh])]

theorem dispatch_to_ar_only {w : Widgets} {rc : RuntimeContext}
    (himg : w.image_mode_enabled = true) (hval : w.image_mode_value = some 0)
    (hwh : (w.width_enabled && w.height_enabled) = false)
    (hmw : (w.mp_enabled && w.width_enabled) = false)
    (hmh : (w.mp_enabled && w.height_enabled) = false) :
    calculate_dimension_source w rc = calculate_ar_only w rc := by
  unfold calculate_dimension_source
  rw [if_neg (by simp [hval]), if_neg (by simp [Bool.and_assoc, hwh]),
    if_neg (by simp [hwh]), if_neg (by simp [hmw]), if_neg (by simp [hmh]),
    if_pos (by simp [himg, hval])]

theorem dispatch_to_width_ar {w : Widgets} {rc : RuntimeContext}
    (hni : (w.image_mode_enabled && w.image_mode_value == some 1) = false)
    (hni0 : (w.image_mode_enabled && w.image_mode_value == some 0) = false)
    (hm : w.mp_enabled = false) (hw : w.width_enabled = true)
    (hh : w.height_enabled = false) :
    calculate_dimension_source w rc = calculate_width_with_ar w := by
  unfold calculate_dimension_source
  rw [if_neg (by simp [hni]), if_neg (by simp [hm]), if_neg (by simp [hh]),
    if_neg (by simp [hm]), if_neg (by simp [hm]), if_neg (by simp [hni0]),
    if_pos hw]

theorem dispatch_to_height_ar {w : Widgets} {rc : RuntimeContext}
    (hni : (w.image_mode_enabled && w.image_mode_value == some 1) = false)
    (hni0 : (w.image_mode_enabled && w.image_mode_value == some 0) = false)
    (hm : w.mp_enabled = false) (hw : w.width_enabled = false)
    (hh : w.height_enabled = true) :
    calculate_dimension_source w rc = calculate_height_with_ar w := by
  unfold calculate_dimension_source
  rw [if_neg (by simp [hni]), if_neg (by simp [hm]), if_neg (by simp [hw]),
    if_neg (by simp [hm]), if_neg (by simp [hm]), if_neg (by simp [hni0]),
    if_neg (by simp [hw]), if_pos hh]

theorem dispatch_to_mp_ar {w : Widgets} {rc : RuntimeContext}
    (hni : (w.image_mode_enabled && w.image_mode_value == some 1) = false)
    (hni0 : (w.image_mode_enabled && w.image_mode_value == some 0) = false)
    (hm : w.mp_enabled = true) (hw : w.width_enabled = false)
    (hh : w.height_enabled = false) :
    calculate_dimension_source w rc = calculate_mp_with_ar w := by
  unfold calculate_dimension_source
  rw [if_neg (by simp [hni]), if_neg (by simp [hw]), if_neg (by simp [hw]),
    if_neg (by simp [hw]), if_neg (by simp [hh]), if_neg (by simp [hni0]),
    if_neg (by simp [hw]), if_neg (by simp [hh]), if_pos hm]

theorem dispatch_to_defaults {w : Widgets} {rc : RuntimeContext}
    (hni : (w.image_mode_enabled && w.image_mode_value == some 1) = false)
    (hni0 : (w.image_mode_enabled && w.image_mode_value == some 0) = false)
    (hm : w.mp_enabled = false) (hw : w.width_enabled = false)
    (hh : w.height_enabled = false) :
    calculate_dimension_source w rc = calculate_defaults w := by
  unfold calculate_dimension_source
  rw [if_neg (by simp [hni]), if_neg (by simp [hw]), if_neg (by simp [hw]),
    if_neg (by simp [hw]), if_neg (by simp [hh]), if_neg (by simp [hni0]),
    if_neg (by simp [hw]), if_neg (by simp [hh]), if_neg (by simp [hm])]

/-! ## Well-formedness hypotheses for totality -/

/-- The optional entry is present and positive. -/
def optPosInt : Option ℤ → Prop
  | some v => 0 < v
  | none => False

instance (o : Option ℤ) : Decidable (optPosInt o) :=
  match o with
  | some v => inferInstanceAs (Decidable (0 < v))
  | none => .isFalse id

/-- The optional entry is present and nonnegative. -/
def optNonnegRat : Option ℚ → Prop
  | some v => 0 ≤ v
  | none => False

instance (o : Option ℚ) : Decidable (optNonnegRat o) :=
  match o with
  | some v => inferInstanceAs (Decidable (0 ≤ v))
  | none => .isFalse id

/-- A present image has positive dimensions. -/
def imageInfoPos : Option ImageInfo → Prop
  | some i => 0 < i.width ∧ 0 < i.height
  | none => True

instance (o : Option ImageInfo) : Decidable (imageInfoPos o) :=
  match o with
  | some i => inferInstanceAs (Decidable (0 < i.width ∧ 0 < i.height))
  | none => .isTrue trivial

/-- The dimension value is below twice the megapixel target, so the derived
complementary dimension rounds to at least `1`. -/
def mpDimBig : Option ℚ → Option ℤ → Prop
  | some m, some v => (v : ℚ) < 2 * (m * 1000000)
  | _, _ => True

/-- Both rounded square roots of `t * r` and `t / r` are at least `1`. -/
def scaledBig (t r : ℚ) : Prop := 1/4 < t * r ∧ 1/4 < t / r

/-- Guarded variant of `scaledBig` for an optional megapixel value. -/
def scaledBigOpt : Option ℚ → ℚ → Prop
  | some m, r => scaledBig (m * 1000000) r
  | none, _ => True

/-- The quotient of the value by the ratio rounds to at least `1`. -/
def pyRoundBigDiv : Option ℤ → ℚ → Prop
  | some v, r => 1/2 < (v : ℚ) / r
  | none, _ => True

/-- The product of the value and the ratio rounds to at least `1`. -/
def pyRoundBigMul : Option ℤ → ℚ → Prop
  | some v, r => 1/2 < (v : ℚ) * r
  | none, _ => True

/-- `scaledBig` for the priority-2 combination of all three values. -/
def mpScalarBig : Option ℚ → Option ℤ → Option ℤ → Prop
  | some m, some v, some u => scaledBig (m * 1000000) ((v : ℚ) / (u : ℚ))
  | _, _, _ => True

/-- The image ratio `w / h` as an exact rational. -/
def imgRatio (info : ImageInfo) : ℚ := (info.width : ℚ) / (info.height : ℚ)

/-- The ratio of the active aspect-ratio dict (`0` when resolution raises,
which cannot happen under `RatioTextOk`). -/
def activeRatioQ (w : Widgets) : ℚ :=
  match get_active_aspect_ratio w with
  | .ok ar => ar.ratio
  | .error _ => 0

/-- Well-formedness of a widget state and runtime context: every enabled
dimension entry is present and positive (the megapixel entry nonnegative), a
present image has positive dimensions, any pattern-matching ratio text has
positive components, and in MP+Width mode the width is below twice the
megapixel target (so the derived height is nonzero and its GCD reduction
cannot divide by zero). -/
def WellFormed (w : Widgets) (rc : RuntimeContext) : Prop :=
  (w.width_enabled = true → optPosInt w.width_value) ∧
  (w.height_enabled = true → optPosInt w.height_value) ∧
  (w.mp_enabled = true → optNonnegRat w.mp_value) ∧
  imageInfoPos rc.image_info ∧
  RatioTextOk w ∧
  (w.mp_enabled = true → w.width_enabled = true → w.height_enabled = false →
    mpDimBig w.mp_value w.width_value)

/-- Proportionality of the inputs: every dimension derived by rounding a
quotient, product or square root comes out at least `1`.  Each conjunct is
guarded by the input combination that makes the corresponding priority branch
reachable. -/
def Proportionate (w : Widgets) (rc : RuntimeContext) : Prop :=
  (w.mp_enabled = true → w.width_enabled = true → w.height_enabled = true →
    mpScalarBig w.mp_value w.width_value w.height_value) ∧
  (w.mp_enabled = true → w.width_enabled = false → w.height_enabled = true →
    mpDimBig w.mp_value w.height_value) ∧
  (∀ info, rc.image_info = some info →
    (w.width_enabled = true → pyRoundBigDiv w.width_value (imgRatio info)) ∧
    (w.width_enabled = false → w.height_enabled = true →
      pyRoundBigMul w.height_value (imgRatio info)) ∧
    (w.width_enabled = false → w.height_enabled = false → w.mp_enabled = true →
      scaledBigOpt w.mp_value (imgRatio info)) ∧
    (w.width_enabled = false → w.height_enabled = false → w.mp_enabled = false →
      scaledBig 1000000 (imgRatio info))) ∧
  (w.width_enabled = true → w.height_enabled = false → w.mp_enabled = false →
    pyRoundBigDiv w.width_value (activeRatioQ w)) ∧
  (w.width_enabled = false → w.height_enabled = true → w.mp_enabled = false →
    pyRoundBigMul w.height_value (activeRatioQ w)) ∧
  (w.width_enabled = false → w.height_enabled = false → w.mp_enabled = true →
    scaledBigOpt w.mp_value (activeRatioQ w)) ∧
  scaledBig 1000000 (activeRatioQ w)

/-- Defaults computation under well-formed ratio text: succeeds, and is
bounded under the proportionality condition. -/
theorem defaults_bounded {w : Widgets} (hrt : RatioTextOk w)
    (hp : scaledBig 1000000 (activeRatioQ w)) :
    ∃ r, calculate_defaults w = .ok r ∧ r.priority = 6 ∧
      1 ≤ r.baseW ∧ 1 ≤ r.baseH := by
  obtain ⟨ar, har, hpos⟩ := get_active_aspect_ratio_ok hrt
  have hq : activeRatioQ w = ar.ratio := by unfold activeRatioQ; rw [har]
  obtain ⟨r, hok, _, hpri, hbw, hbh, _, _⟩ := calculate_defaults_spec har hpos
  rw [hq] at hp
  exact ⟨r, hok, hpri, by rw [hbw]; exact one_le_rsqrtNearest hp.1,
    by rw [hbh]; exact one_le_rsqrtNearest hp.2⟩

theorem optPosInt_elim {o : Option ℤ} (h : optPosInt o) :
    ∃ v, o = some v ∧ 0 < v := by
  rcases o with _ | v
  · exact absurd h id
  · exact ⟨v, rfl, h⟩

theorem optNonnegRat_elim {o : Option ℚ} (h : optNonnegRat o) :
    ∃ v, o = some v ∧ 0 ≤ v := by
  rcases o with _ | v
  · exact absurd h id
  · exact ⟨v, rfl, h⟩

theorem defaults_master {w : Widgets} (hrt : RatioTextOk w) :
    ∃ r, calculate_defaults w = .ok r ∧ 1 ≤ r.priority ∧ r.priority ≤ 6 ∧
      (scaledBig 1000000 (activeRatioQ w) → 1 ≤ r.baseW ∧ 1 ≤ r.baseH) := by
  obtain ⟨ar, har, hpos⟩ := get_active_aspect_ratio_ok hrt
  have hq : activeRatioQ w = ar.ratio := by unfold activeRatioQ; rw [har]
  obtain ⟨r, hok, _, hpri, hbw, hbh, _, _⟩ := calculate_defaults_spec har hpos
  refine ⟨r, hok, by norm_num [hpri], by norm_num [hpri], ?_⟩
  intro hp
  rw [hq] at hp
  exact ⟨by rw [hbw]; exact one_le_rsqrtNearest hp.1,
    by rw [hbh]; exact one_le_rsqrtNearest hp.2⟩

/-- Master totality lemma: under `WellFormed` the resolver returns a result
with priority in `1..6`, and under the additional `Proportionate`
hypotheses both base dimensions are at least `1`. -/
theorem resolver_master {w : Widgets} {rc : RuntimeContext}
    (hwf : WellFormed w rc) :
    ∃ r, calculate_dimension_source w rc = .ok r ∧ 1 ≤ r.priority ∧
      r.priority ≤ 6 ∧
      (Proportionate w rc → 1 ≤ r.baseW ∧ 1 ≤ r.baseH) := by
  obtain ⟨hwvP, hhvP, hmvP, himg, hrt, hmpw⟩ := hwf
  by_cases h1 : w.image_mode_enabled = true ∧ w.image_mode_value = some 1
  · -- Priority 1: Exact Dims
    rw [dispatch_to_exact_dims h1.1 h1.2]
    rcases hi : rc.image_info with _ | info
    · rw [calculate_exact_dims_no_image hi]
      obtain ⟨r, hok, hp1, hp6, hbnd⟩ := defaults_master hrt
      exact ⟨r, hok, hp1, hp6, fun hp => hbnd hp.2.2.2.2.2.2⟩
    · have hdim : 0 < info.width ∧ 0 < info.height := by
        rw [hi] at himg; exact himg
      obtain ⟨r, hok, _, hpri, hbw, hbh, _⟩ :=
        calculate_exact_dims_spec hi (compute_ar_eq (by omega : info.height ≠ 0))
      refine ⟨r, hok, by norm_num [hpri], by norm_num [hpri], ?_⟩
      intro _
      exact ⟨by rw [hbw]; omega, by rw [hbh]; omega⟩
  · have hni := img_cond_false h1
    rcases hmb : w.mp_enabled <;> rcases hwb : w.width_enabled <;>
      rcases hhb : w.height_enabled
    · -- mp off, width off, height off
      by_cases h0 : w.image_mode_enabled = true ∧ w.image_mode_value = some 0
      · rw [dispatch_to_ar_only h0.1 h0.2 (by simp [hwb]) (by simp [hmb])
          (by simp [hmb])]
        rcases hi : rc.image_info with _ | info
        · rw [calculate_ar_only_no_image hi]
          obtain ⟨r, hok, hp1, hp6, hbnd⟩ := defaults_master hrt
          exact ⟨r, hok, hp1, hp6, fun hp => hbnd hp.2.2.2.2.2.2⟩
        · have hdim : 0 < info.width ∧ 0 < info.height := by
            rw [hi] at himg; exact himg
          obtain ⟨r, hok, _, hpri, hbw, hbh⟩ :=
            calculate_ar_only_spec_none hi hdim.1 hdim.2 hwb hhb hmb
          refine ⟨r, hok, by norm_num [hpri], by norm_num [hpri], ?_⟩
          intro hp
          have hsb : scaledBig 1000000 (imgRatio info) :=
            (hp.2.2.1 info hi).2.2.2 hwb hhb hmb
          unfold imgRatio at hsb
          exact ⟨by rw [hbw]; exact one_le_rsqrtNearest hsb.1,
            by rw [hbh]; exact one_le_rsqrtNearest hsb.2⟩
      · have hni0 := img_cond_false h0
        rw [dispatch_to_defaults hni hni0 hmb hwb hhb]
        obtain ⟨r, hok, hp1, hp6, hbnd⟩ := defaults_master hrt
        exact ⟨r, hok, hp1, hp6, fun hp => hbnd hp.2.2.2.2.2.2⟩
    · -- mp off, width off, height on
      obtain ⟨v2, hv2, hv2pos⟩ := optPosInt_elim (hhvP hhb)
      by_cases h0 : w.image_mode_enabled = true ∧ w.image_mode_value = some 0
      · rw [dispatch_to_ar_only h0.1 h0.2 (by simp [hwb]) (by simp [hmb])
          (by simp [hmb])]
        rcases hi : rc.image_info with _ | info
        · rw [calculate_ar_only_no_image hi]
          obtain ⟨r, hok, hp1, hp6, hbnd⟩ := defaults_master hrt
          exact ⟨r, hok, hp1, hp6, fun hp => hbnd hp.2.2.2.2.2.2⟩
        · have hdim : 0 < info.width ∧ 0 < info.height := by
            rw [hi] at himg; exact himg
          obtain ⟨r, hok, _, hpri, hbw, hbh⟩ :=
            calculate_ar_only_spec_height hi (by omega : info.height ≠ 0)
              hwb hhb hv2
          refine ⟨r, hok, by norm_num [hpri], by norm_num [hpri], ?_⟩
          intro hp
          have hc := (hp.2.2.1 info hi).2.1 hwb hhb
          rw [hv2] at hc
          have hc2 : 1/2 < (v2 : ℚ) * imgRatio info := hc
          unfold imgRatio at hc2
          exact ⟨by rw [hbw]; exact one_le_pyRound hc2,
            by rw [hbh]; omega⟩
      · have hni0 := img_cond_false h0
        rw [dispatch_to_height_ar hni hni0 hmb hwb hhb]
        obtain ⟨ar, har, hpos⟩ := get_active_aspect_ratio_ok hrt
        have hq : activeRatioQ w = ar.ratio := by unfold activeRatioQ; rw [har]
        obtain ⟨r, hok, _, hpri, hbw, hbh, _, _⟩ :=
          calculate_height_with_ar_spec hv2 har
        refine ⟨r, hok, by norm_num [hpri], by norm_num [hpri], ?_⟩
        intro hp
        have hc := hp.2.2.2.2.1 hwb hhb hmb
        rw [hv2, hq] at hc
        have hc2 : 1/2 < (v2 : ℚ) * ar.ratio := hc
        exact ⟨by rw [hbw]; exact one_le_pyRound hc2, by rw [hbh]; omega⟩
    · -- mp off, width on, height off
      obtain ⟨v, hv, hvpos⟩ := optPosInt_elim (hwvP hwb)
      by_cases h0 : w.image_mode_enabled = true ∧ w.image_mode_value = some 0
      · rw [dispatch_to_ar_only h0.1 h0.2 (by simp [hhb]) (by simp [hmb])
          (by simp [hmb])]
        rcases hi : rc.image_info with _ | info
        · rw [calculate_ar_only_no_image hi]
          obtain ⟨r, hok, hp1, hp6, hbnd⟩ := defaults_master hrt
          exact ⟨r, hok, hp1, hp6, fun hp => hbnd hp.2.2.2.2.2.2⟩
        · have hdim : 0 < info.width ∧ 0 < info.height := by
            rw [hi] at himg; exact himg
          obtain ⟨r, hok, _, hpri, hbw, hbh⟩ :=
            calculate_ar_only_spec_width hi hdim.1 hdim.2 hwb hv
          refine ⟨r, hok, by norm_num [hpri], by norm_num [hpri], ?_⟩
          intro hp
          have hc := (hp.2.2.1 info hi).1 hwb
          rw [hv] at hc
          have hc2 : 1/2 < (v : ℚ) / imgRatio info := hc
          unfold imgRatio at hc2
          exact ⟨by rw [hbw]; omega, by rw [hbh]; exact one_le_pyRound hc2⟩
      · have hni0 := img_cond_false h0
        rw [dispatch_to_width_ar hni hni0 hmb hwb hhb]
        obtain ⟨ar, har, hpos⟩ := get_active_aspect_ratio_ok hrt
        have hq : activeRatioQ w = ar.ratio := by unfold activeRatioQ; rw [har]
        obtain ⟨r, hok, _, hpri, hbw, hbh, _, _⟩ :=
          calculate_width_with_ar_spec hv har hpos
        refine ⟨r, hok, by norm_num [hpri], by norm_num [hpri], ?_⟩
        intro hp
        have hc := hp.2.2.2.1 hwb hhb hmb
        rw [hv, hq] at hc
        have hc2 : 1/2 < (v : ℚ) / ar.ratio := hc
        exact ⟨by rw [hbw]; omega, by rw [hbh]; exact one_le_pyRound hc2⟩
    · -- mp off, width on, height on: priority 3a
      obtain ⟨v, hv, hvpos⟩ := optPosInt_elim (hwvP hwb)
      obtain ⟨u, hu, hupos⟩ := optPosInt_elim (hhvP hhb)
      rw [dispatch_to_width_height hni hmb hwb hhb]
      obtain ⟨r, hok, _, hpri, hbw, hbh, _⟩ :=
        calculate_width_height_explicit_spec hv hu (by omega)
      refine ⟨r, hok, by norm_num [hpri], by norm_num [hpri], ?_⟩
      intro _
      exact ⟨by rw [hbw]; omega, by rw [hbh]; omega⟩
    · -- mp on, width off, height off
      obtain ⟨m, hm, hmpos⟩ := optNonnegRat_elim (hmvP hmb)
      by_cases h0 : w.image_mode_enabled = true ∧ w.image_mode_value = some 0
      · rw [dispatch_to_ar_only h0.1 h0.2 (by simp [hwb]) (by simp [hwb])
          (by simp [hhb])]
        rcases hi : rc.image_info with _ | info
        · rw [calculate_ar_only_no_image hi]
          obtain ⟨r, hok, hp1, hp6, hbnd⟩ := defaults_master hrt
          exact ⟨r, hok, hp1, hp6, fun hp => hbnd hp.2.2.2.2.2.2⟩
        · have hdim : 0 < info.width ∧ 0 < info.height := by
            rw [hi] at himg; exact himg
          obtain ⟨r, hok, _, hpri, hbw, hbh⟩ :=
            calculate_ar_only_spec_mp hi hdim.1 hdim.2 hwb hhb hmb hm hmpos
          refine ⟨r, hok, by norm_num [hpri], by norm_num [hpri], ?_⟩
          intro hp
          have hc := (hp.2.2.1 info hi).2.2.1 hwb hhb hmb
          rw [hm] at hc
          have hc2 : scaledBig (m * 1000000) (imgRatio info) := hc
          unfold imgRatio at hc2
          exact ⟨by rw [hbw]; exact one_le_rsqrtNearest hc2.1,
            by rw [hbh]; exact one_le_rsqrtNearest hc2.2⟩
      · have hni0 := img_cond_false h0
        rw [dispatch_to_mp_ar hni hni0 hmb hwb hhb]
        obtain ⟨ar, har, hpos⟩ := get_active_aspect_ratio_ok hrt
        have hq : activeRatioQ w = ar.ratio := by unfold activeRatioQ; rw [har]
        obtain ⟨r, hok, _, hpri, hbw, hbh, _, _⟩ :=
          calculate_mp_with_ar_spec hm har hpos hmpos
        refine ⟨r, hok, by norm_num [hpri], by norm_num [hpri], ?_⟩
        intro hp
        have hc := hp.2.2.2.2.2.1 hwb hhb hmb
        rw [hm, hq] at hc
        have hc2 : scaledBig (m * 1000000) ar.ratio := hc
        exact ⟨by rw [hbw]; exact one_le_rsqrtNearest hc2.1,
          by rw [hbh]; exact one_le_rsqrtNearest hc2.2⟩
    · -- mp on, width off, height on: priority 3c
      obtain ⟨m, hm, hmpos⟩ := optNonnegRat_elim (hmvP hmb)
      obtain ⟨u, hu, hupos⟩ := optPosInt_elim (hhvP hhb)
      rw [dispatch_to_mp_height hni hmb hwb hhb]
      obtain ⟨r, hok, _, hpri, hbw, hbh⟩ :=
        calculate_mp_height_explicit_spec_pos hu hm hupos
      refine ⟨r, hok, by norm_num [hpri], by norm_num [hpri], ?_⟩
      intro hp
      have hc := hp.2.1 hmb hwb hhb
      rw [hm, hu] at hc
      have hc2 : (u : ℚ) < 2 * (m * 1000000) := hc
      have huq : (0 : ℚ) < (u : ℚ) := by exact_mod_cast hupos
      have hhalf : (1 : ℚ)/2 < m * 1000000 / (u : ℚ) := by
        rw [lt_div_iff huq]; linarith
      exact ⟨by rw [hbw]; exact one_le_pyRound hhalf, by rw [hbh]; omega⟩
    · -- mp on, width on, height off: priority 3b
      obtain ⟨m, hm, hmpos⟩ := optNonnegRat_elim (hmvP hmb)
      obtain ⟨v, hv, hvpos⟩ := optPosInt_elim (hwvP hwb)
      have hc := hmpw hmb hwb hhb
      rw [hm, hv] at hc
      have hc2 : (v : ℚ) < 2 * (m * 1000000) := hc
      have hvq : (0 : ℚ) < (v : ℚ) := by exact_mod_cast hvpos
      have hhalf : (1 : ℚ)/2 < m * 1000000 / (v : ℚ) := by
        rw [lt_div_iff hvq]; linarith
      have hone := one_le_pyRound hhalf
      rw [dispatch_to_mp_width hni hmb hwb hhb]
      obtain ⟨r, hok, _, hpri, hbw, hbh, _⟩ :=
        calculate_mp_width_explicit_spec_pos hv hm hvpos (by omega)
      refine ⟨r, hok, by norm_num [hpri], by norm_num [hpri], ?_⟩
      intro _
      exact ⟨by rw [hbw]; omega, by rw [hbh]; omega⟩
    · -- mp on, width on, height on: priority 2
      obtain ⟨m, hm, hmpos⟩ := optNonnegRat_elim (hmvP hmb)
      obtain ⟨v, hv, hvpos⟩ := optPosInt_elim (hwvP hwb)
      obtain ⟨u, hu, hupos⟩ := optPosInt_elim (hhvP hhb)
      rw [dispatch_to_mp_scalar hni hmb hwb hhb]
      obtain ⟨r, hok, _, hpri, hbw, hbh, _⟩ :=
        calculate_mp_scalar_with_ar_spec hv hu hm hvpos hupos hmpos
      refine ⟨r, hok, by norm_num [hpri], by norm_num [hpri], ?_⟩
      intro hp
      have hc := hp.1 hmb hwb hhb
      rw [hm, hv, hu] at hc
      have hc2 : scaledBig (m * 1000000) ((v : ℚ) / (u : ℚ)) := hc
      exact ⟨by rw [hbw]; exact one_le_rsqrtNearest hc2.1,
        by rw [hbh]; exact one_le_rsqrtNearest hc2.2⟩

instance (m : Option ℚ) (v : Option ℤ) : Decidable (mpDimBig m v) :=
  match m, v with
  | some m, some v => inferInstanceAs (Decidable ((v : ℚ) < 2 * (m * 1000000)))
  | some _, none => .isTrue trivial
  | none, _ => .isTrue trivial

instance (t r : ℚ) : Decidable (scaledBig t r) :=
  inferInstanceAs (Decidable (_ ∧ _))

instance (m : Option ℚ) (r : ℚ) : Decidable (scaledBigOpt m r) :=
  match m with
  | some m => inferInstanceAs (Decidable (scaledBig (m * 1000000) r))
  | none => .isTrue trivial

instance (v : Option ℤ) (r : ℚ) : Decidable (pyRoundBigDiv v r) :=
  match v with
  | some v => inferInstanceAs (Decidable (1/2 < (v : ℚ) / r))
  | none => .isTrue trivial

instance (v : Option ℤ) (r : ℚ) : Decidable (pyRoundBigMul v r) :=
  match v with
  | some v => inferInstanceAs (Decidable (1/2 < (v : ℚ) * r))
  | none => .isTrue trivial

instance (m : Option ℚ) (v u : Option ℤ) : Decidable (mpScalarBig m v u) :=
  match m, v, u with
  | some m, some v, some u =>
      inferInstanceAs (Decidable (scaledBig (m * 1000000) ((v : ℚ) / (u : ℚ))))
  | some _, some _, none => .isTrue trivial
  | some _, none, _ => .isTrue trivial
  | none, _, _ => .isTrue trivial

instance (w : Widgets) (rc : RuntimeContext) : Decidable (WellFormed w rc) := by
  unfold WellFormed
  infer_instance

/-! ## Claims -/

/-- C4: for all positive integers `w` and `h`, `_compute_ar_from_dimensions`
returns `aspectW` and `aspectH` that are coprime integers satisfying
`aspectW * h = aspectH * w` (exact rational equality of `aspectW/aspectH`
and `w/h`). -/
theorem C4_gcd_reduction (w h : ℤ) (hw : 0 < w) (hh : 0 < h) :
    ∃ ar, compute_ar_from_dimensions w h = .ok ar ∧
      ∃ a b : ℤ, ar.aspectW = (a : ℚ) ∧ ar.aspectH = (b : ℚ) ∧
        Int.gcd a b = 1 ∧ a * h = b * w := by
  have hgne : (Int.gcd w h : ℤ) ≠ 0 := by
    simp only [ne_eq, Int.natCast_eq_zero, Int.gcd_eq_zero_iff, not_and]
    intro hw0
    omega
  have hgpos : (0 : ℤ) < (Int.gcd w h : ℤ) := by positivity
  have hfw : w.fdiv (Int.gcd w h) = w / (Int.gcd w h : ℤ) :=
    Int.fdiv_eq_ediv w (by positivity)
  have hfh : h.fdiv (Int.gcd w h) = h / (Int.gcd w h : ℤ) :=
    Int.fdiv_eq_ediv h (by positivity)
  refine ⟨_, compute_ar_eq (by omega), w.fdiv (Int.gcd w h),
    h.fdiv (Int.gcd w h), rfl, rfl, ?_, ?_⟩
  · rw [hfw, hfh]
    exact Int.gcd_div_gcd_div_gcd (Nat.pos_of_ne_zero (by exact_mod_cast hgne))
  · have hww : (Int.gcd w h : ℤ) * (w / (Int.gcd w h : ℤ)) = w :=
      Int.mul_ediv_cancel' Int.gcd_dvd_left
    have hhh : (Int.gcd w h : ℤ) * (h / (Int.gcd w h : ℤ)) = h :=
      Int.mul_ediv_cancel' Int.gcd_dvd_right
    rw [hfw, hfh]
    calc w / (Int.gcd w h : ℤ) * h
        = w / (Int.gcd w h : ℤ) * ((Int.gcd w h : ℤ) * (h / (Int.gcd w h : ℤ))) := by
          rw [hhh]
      _ = h / (Int.gcd w h : ℤ) * ((Int.gcd w h : ℤ) * (w / (Int.gcd w h : ℤ))) := by
          ring
      _ = h / (Int.gcd w h : ℤ) * w := by rw [hww]

/-- C4 witness at `1920 × 1080`. -/
theorem C4_gcd_reduction_witness :
    ∃ ar, compute_ar_from_dimensions 1920 1080 = .ok ar ∧
      ∃ a b : ℤ, ar.aspectW = (a : ℚ) ∧ ar.aspectH = (b : ℚ) ∧
        Int.gcd a b = 1 ∧ a * 1080 = b * 1920 :=
  C4_gcd_reduction 1920 1080 (by norm_num) (by norm_num)

/-- C9: `calculate_dimensions_api` never propagates an exception: it returns
the calculator result marked successful, or, when the underlying calculation
raises, the failure dict carrying the exception message. -/
theorem C9_api_total (w : Widgets) (rc : RuntimeContext) :
    (∃ r, calculate_dimension_source w rc = .ok r ∧
      calculate_dimensions_api w rc = .success r) ∨
    (∃ e, calculate_dimension_source w rc = .error e ∧
      calculate_dimensions_api w rc = .failure e.message) := by
  unfold calculate_dimensions_api
  rcases h : calculate_dimension_source w rc with e | r
  · exact Or.inr ⟨e, rfl, rfl⟩
  · exact Or.inl ⟨r, rfl, rfl⟩

/-- C10: with image mode disabled, the resolver ignores the runtime context
entirely: any two contexts produce identical results. -/
theorem C10_noninterference (w : Widgets) (rc1 rc2 : RuntimeContext)
    (h : w.image_mode_enabled = false) :
    calculate_dimension_source w rc1 = calculate_dimension_source w rc2 := by
  unfold calculate_dimension_source
  simp [h]

/-- C10 witness: a width-only widget state against the empty context and
against a context carrying a `123 × 45` image. -/
theorem C10_noninterference_witness :
    calculate_dimension_source { width_enabled := true, width_value := some 640 }
        {} =
      calculate_dimension_source { width_enabled := true, width_value := some 640 }
        { image_info := some ⟨123, 45⟩ } :=
  C10_noninterference _ _ _ rfl

/-- C8: every result computed at priority level 5 or 6 has an empty conflicts
list, for every widgets dictionary and runtime context. -/
theorem C8_low_priority_no_conflicts (w : Widgets) (rc : RuntimeContext)
    (r : Result) (hok : calculate_dimension_source w rc = .ok r)
    (hp : r.priority = 5 ∨ r.priority = 6) : r.conflicts = [] := by
  unfold calculate_dimension_source at hok
  split_ifs at hok
  · rcases calculate_exact_dims_shape hok with ⟨_, h⟩ | ⟨_, h⟩
    · rcases hp with hp | hp <;> omega
    · exact h
  · have h := (calculate_mp_scalar_with_ar_shape hok).2
    rcases hp with hp | hp <;> omega
  · have h := (calculate_width_height_explicit_shape hok).2
    rcases hp with hp | hp <;> omega
  · have h := (calculate_mp_width_explicit_shape hok).2
    rcases hp with hp | hp <;> omega
  · have h := (calculate_mp_height_explicit_shape hok).2
    rcases hp with hp | hp <;> omega
  · rcases calculate_ar_only_shape hok with ⟨_, h⟩ | ⟨_, h⟩
    · rcases hp with hp | hp <;> omega
    · exact h
  · exact (calculate_width_with_ar_shape hok).2.2
  · exact (calculate_height_with_ar_shape hok).2.2
  · exact (calculate_mp_with_ar_shape hok).2.2
  · exact (calculate_defaults_shape hok).2.2

/-- C8 witness: the width-only state resolves at priority 5 with no
conflicts. -/
theorem C8_low_priority_no_conflicts_witness :
    ∃ r, calculate_dimension_source
        { width_enabled := true, width_value := some 640 } {} = .ok r ∧
      r.priority = 5 ∧ r.conflicts = [] := by
  have hd : calculate_dimension_source
      { width_enabled := true, width_value := some 640 } {} =
      calculate_width_with_ar { width_enabled := true, width_value := some 640 } :=
    dispatch_to_width_ar rfl rfl rfl rfl rfl
  obtain ⟨ar, har, hpos⟩ := get_active_aspect_ratio_ok
    (w := { width_enabled := true, width_value := some 640 }) (by decide)
  obtain ⟨r, hok, _, hpri, _, _, _, _⟩ := calculate_width_with_ar_spec rfl har hpos
  have hok2 : calculate_dimension_source
      { width_enabled := true, width_value := some 640 } {} = .ok r := by
    rw [hd]; exact hok
  exact ⟨r, hok2, hpri,
    C8_low_priority_no_conflicts _ _ r hok2 (Or.inl hpri)⟩

/-- C7: when an image-dependent mode (Exact Dims, value 1, or AR-Only,
value 0 with no two-input combination preempting it) is selected but the
runtime context has no image, the resolver computes the Defaults result, and
any value it returns has priority 6. -/
theorem C7_missing_image_falls_back (w : Widgets) (rc : RuntimeContext)
    (hi : rc.image_info = none) (hen : w.image_mode_enabled = true)
    (hval : w.image_mode_value = some 1 ∨
      (w.image_mode_value = some 0 ∧
        (w.width_enabled && w.height_enabled) = false ∧
        (w.mp_enabled && w.width_enabled) = false ∧
        (w.mp_enabled && w.height_enabled) = false)) :
    calculate_dimension_source w rc = calculate_defaults w ∧
      ∀ r, calculate_dimension_source w rc = .ok r → r.priority = 6 := by
  have heq : calculate_dimension_source w rc = calculate_defaults w := by
    rcases hval with hval | ⟨hval, hwh, hmw, hmh⟩
    · rw [dispatch_to_exact_dims hen hval, calculate_exact_dims_no_image hi]
    · rw [dispatch_to_ar_only hen hval hwh hmw hmh,
        calculate_ar_only_no_image hi]
  refine ⟨heq, ?_⟩
  intro r hok
  rw [heq] at hok
  exact (calculate_defaults_shape hok).2.1

/-- C7 witness: AR-Only mode with only the megapixel input enabled and no
image resolves through Defaults at priority 6. -/
theorem C7_missing_image_falls_back_witness :
    calculate_dimension_source
        { mp_enabled := true, mp_value := some 2, image_mode_enabled := true,
          image_mode_value := some 0 } {} =
      calculate_defaults
        { mp_enabled := true, mp_value := some 2, image_mode_enabled := true,
          image_mode_value := some 0 } ∧
      ∀ r, calculate_dimension_source
          { mp_enabled := true, mp_value := some 2, image_mode_enabled := true,
            image_mode_value := some 0 } {} = .ok r → r.priority = 6 :=
  C7_missing_image_falls_back _ _ rfl rfl (Or.inr ⟨rfl, rfl, rfl, rfl⟩)

/-- C6: with `width=1920`, `height=1080` and `mp=1.5` all enabled and image
mode off, the resolver selects priority 2, derives the `16:9` ratio from the
pair, and returns `baseW = 1633`, `baseH = 919` (round-half-to-even of the
rescaled exact values). -/
theorem C6_mp_scalar_example :
    ∃ r, calculate_dimension_source
        { width_enabled := true, width_value := some 1920,
          height_enabled := true, height_value := some 1080,
          mp_enabled := true, mp_value := some (3/2) } {} = .ok r ∧
      r.priority = 2 ∧ r.baseW = 1633 ∧ r.baseH = 919 ∧
      r.ar.aspectW = 16 ∧ r.ar.aspectH = 9 ∧ r.ar.ratio = 16/9 := by
  have hd : calculate_dimension_source
      { width_enabled := true, width_value := some 1920,
        height_enabled := true, height_value := some 1080,
        mp_enabled := true, mp_value := some (3/2) } {} =
      calculate_mp_scalar_with_ar
        { width_enabled := true, width_value := some 1920,
          height_enabled := true, height_value := some 1080,
          mp_enabled := true, mp_value := some (3/2) } :=
    dispatch_to_mp_scalar rfl rfl rfl rfl
  obtain ⟨r, hok, _, hpri, hbw, hbh, hare⟩ :=
    calculate_mp_scalar_with_ar_spec (w :=
      { width_enabled := true, width_value := some 1920,
        height_enabled := true, height_value := some 1080,
        mp_enabled := true, mp_value := some (3/2) })
      rfl rfl rfl (by norm_num) (by norm_num) (by norm_num)
  have hw16 : rsqrtNearest ((3/2 : ℚ) * 1000000 * (((1920 : ℤ) : ℚ) / ((1080 : ℤ) : ℚ))) = 1633 := by
    apply rsqrtNearest_eq (by norm_num)
    · push_cast
      norm_num
    · push_cast
      norm_num
  have hh9 : rsqrtNearest ((3/2 : ℚ) * 1000000 / (((1920 : ℤ) : ℚ) / ((1080 : ℤ) : ℚ))) = 919 := by
    apply rsqrtNearest_eq (by norm_num)
    · push_cast
      norm_num
    · push_cast
      norm_num
  have hgcd : ((1920 : ℤ).fdiv (Int.gcd 1920 1080) : ℤ) = 16 := by decide
  have hgcd2 : ((1080 : ℤ).fdiv (Int.gcd 1920 1080) : ℤ) = 9 := by decide
  refine ⟨r, by rw [hd]; exact hok, hpri, ?_, ?_, ?_, ?_, ?_⟩
  · rw [hbw, hw16]
  · rw [hbh, hh9]
  · rw [hare]
    show (((1920 : ℤ).fdiv (Int.gcd 1920 1080) : ℤ) : ℚ) = 16
    rw [hgcd]
    norm_num
  · rw [hare]
    show (((1080 : ℤ).fdiv (Int.gcd 1920 1080) : ℤ) : ℚ) = 9
    rw [hgcd2]
    norm_num
  · rw [hare]
    show (((1920 : ℤ) : ℚ) / ((1080 : ℤ) : ℚ)) = 16/9
    push_cast
    norm_num

/-- C5 (amended): in MP+Width mode (megapixel and width enabled, height
disabled, image mode off) the resolver returns priority 3 with
`baseW = width` and `baseH = round(mp * 10^6 / width)` when `width > 0` and
that rounded height is nonzero (otherwise the GCD reduction divides by zero
and the call raises, see the counterexample); when `width ≤ 0` it
substitutes `baseH = 1080` and fires the warning guard. -/
theorem C5_mp_width_mode (w : Widgets) (rc : RuntimeContext) {v : ℤ} {m : ℚ}
    (hie : w.image_mode_enabled = false)
    (hme : w.mp_enabled = true) (hwe : w.width_enabled = true)
    (hhe : w.height_enabled = false)
    (hv : w.width_value = some v) (hm : w.mp_value = some m) :
    (0 < v → pyRound (m * 1000000 / (v : ℚ)) ≠ 0 →
      ∃ r, calculate_dimension_source w rc = .ok r ∧ r.priority = 3 ∧
        r.baseW = v ∧ r.baseH = pyRound (m * 1000000 / (v : ℚ)) ∧
        compute_ar_from_dimensions v (pyRound (m * 1000000 / (v : ℚ))) =
          .ok r.ar) ∧
    (v ≤ 0 →
      ∃ r, calculate_dimension_source w rc = .ok r ∧ r.priority = 3 ∧
        r.baseW = v ∧ r.baseH = 1080 ∧ mp_width_fallback_warning v = true) := by
  have hd : calculate_dimension_source w rc = calculate_mp_width_explicit w :=
    dispatch_to_mp_width (by simp [hie]) hme hwe hhe
  constructor
  · intro hvpos hnz
    obtain ⟨r, hok, _, hpri, hbw, hbh, hare⟩ :=
      calculate_mp_width_explicit_spec_pos hv hm hvpos hnz
    exact ⟨r, by rw [hd]; exact hok, hpri, hbw, hbh, hare⟩
  · intro hvnp
    obtain ⟨r, hok, _, hpri, hbw, hbh, hwarn⟩ :=
      calculate_mp_width_explicit_spec_nonpos hv hm (by omega)
    exact ⟨r, by rw [hd]; exact hok, hpri, hbw, hbh, hwarn⟩

/-- C5 witness: `width = 1200`, `mp = 1.5` gives priority 3 with
`1200 × 1250` and implied ratio `24:25`. -/
theorem C5_mp_width_mode_witness :
    ∃ r, calculate_dimension_source
        { width_enabled := true, width_value := some 1200,
          mp_enabled := true, mp_value := some (3/2) } {} = .ok r ∧
      r.priority = 3 ∧ r.baseW = 1200 ∧ r.baseH = 1250 ∧
      r.ar.aspectW = 24 ∧ r.ar.aspectH = 25 := by
  have hval : pyRound ((3/2 : ℚ) * 1000000 / ((1200 : ℤ) : ℚ)) = 1250 := by
    apply pyRound_eq
    · push_cast
      norm_num
    · push_cast
      norm_num
  obtain ⟨r, hok, hpri, hbw, hbh, hare⟩ :=
    (C5_mp_width_mode
      { width_enabled := true, width_value := some 1200,
        mp_enabled := true, mp_value := some (3/2) } {}
      rfl rfl rfl rfl rfl rfl).1 (by norm_num) (by rw [hval]; norm_num)
  rw [hval] at hbh hare
  rw [compute_ar_eq (by norm_num : (1250 : ℤ) ≠ 0)] at hare
  have hr : r.ar = ⟨((1200 : ℤ) : ℚ) / ((1250 : ℤ) : ℚ),
      (((1200 : ℤ).fdiv (Int.gcd 1200 1250) : ℤ) : ℚ),
      (((1250 : ℤ).fdiv (Int.gcd 1200 1250) : ℤ) : ℚ), none⟩ :=
    (Except.ok.inj hare).symm
  refine ⟨r, hok, hpri, hbw, hbh, ?_, ?_⟩
  · rw [hr]
    show (((1200 : ℤ).fdiv (Int.gcd 1200 1250) : ℤ) : ℚ) = 24
    rw [show ((1200 : ℤ).fdiv (Int.gcd 1200 1250) : ℤ) = 24 from by decide]
    norm_num
  · rw [hr]
    show (((1250 : ℤ).fdiv (Int.gcd 1200 1250) : ℤ) : ℚ) = 25
    rw [show ((1250 : ℤ).fdiv (Int.gcd 1200 1250) : ℤ) = 25 from by decide]
    norm_num

/-- The MP+Width widget state of the C5 counterexample: a tiny megapixel
value whose derived height rounds to zero. -/
def c5CexWidgets : Widgets :=
  { width_enabled := true, width_value := some 1200,
    mp_enabled := true, mp_value := some (1/10000) }

/-- C5 counterexample: in MP+Width mode with `width = 1200` and
`mp = 0.0001` the computed height rounds to `0`, and the claim's promised
priority-3 result is instead a `ZeroDivisionError` escaping
`calculate_dimension_source` (the ratio `w / h` of the GCD reduction divides
by the zero height). -/
theorem C5_mp_width_mode_counterexample :
    calculate_dimension_source c5CexWidgets {} = .error .floatZeroDiv := by
  rw [dispatch_to_mp_width (w := c5CexWidgets) rfl rfl rfl rfl]
  unfold calculate_mp_width_explicit
  rw [show c5CexWidgets.width_value = some 1200 from rfl, req_some, bind_ok_eq]
  rw [show c5CexWidgets.mp_value = some (1/10000) from rfl, req_some, bind_ok_eq]
  dsimp only
  rw [if_pos (by norm_num : (0 : ℤ) < 1200)]
  have hz : pyRound ((1/10000 : ℚ) * 1000000 / ((1200 : ℤ) : ℚ)) = 0 := by
    apply pyRound_eq
    · push_cast
      norm_num
    · push_cast
      norm_num
  rw [hz]
  have hca : compute_ar_from_dimensions 1200 0 = .error .floatZeroDiv := by
    unfold compute_ar_from_dimensions
    rw [if_neg (by decide), if_pos rfl]
  rw [hca, bind_error_eq]

/-- C1 (amended): under well-formed inputs — enabled dimension entries
present and positive, megapixel entry nonnegative, image dimensions positive,
pattern-matching ratio text with positive components, and an MP+Width
combination whose derived height is nonzero — `calculate_dimension_source`
returns a result and raises no exception.  (Outside these conditions it can
raise, see the counterexample.) -/
theorem C1_no_exception (w : Widgets) (rc : RuntimeContext)
    (hwf : WellFormed w rc) :
    ∃ r, calculate_dimension_source w rc = .ok r := by
  obtain ⟨r, hok, _⟩ := resolver_master hwf
  exact ⟨r, hok⟩

/-- C1 witness: the empty widget dictionary is well-formed and resolves
without an exception. -/
theorem C1_no_exception_witness :
    WellFormed {} {} ∧ ∃ r, calculate_dimension_source {} {} = .ok r :=
  ⟨by decide, C1_no_exception {} {} (by decide)⟩

/-- The widget state of the C1 counterexample: width and height enabled and
both zero. -/
def c1CexWidgets : Widgets :=
  { width_enabled := true, width_value := some 0,
    height_enabled := true, height_value := some 0 }

/-- C1 counterexample: with width and height enabled and both zero,
`math.gcd(0, 0) = 0` and the `//` of the GCD reduction raises a
`ZeroDivisionError`, which escapes `calculate_dimension_source` — refuting
the claim that no input combination raises. -/
theorem C1_no_exception_counterexample :
    calculate_dimension_source c1CexWidgets {} = .error .intZeroDiv := by
  rw [dispatch_to_width_height (w := c1CexWidgets) rfl rfl rfl rfl]
  unfold calculate_width_height_explicit
  rw [show c1CexWidgets.width_value = some 0 from rfl, req_some, bind_ok_eq,
    show c1CexWidgets.height_value = some 0 from rfl, req_some, bind_ok_eq]
  have hca : compute_ar_from_dimensions 0 0 = .error .intZeroDiv := by
    unfold compute_ar_from_dimensions
    rw [if_pos (by decide)]
  rw [hca, bind_error_eq]

/-- C2 (amended): under the well-formedness and proportionality hypotheses
the resolver returns exactly one result with priority in `1..6` and both
base dimensions at least `1`.  (Without proportionality a rounded dimension
can be `0`, see the counterexample.) -/
theorem C2_totality (w : Widgets) (rc : RuntimeContext)
    (hwf : WellFormed w rc) (hp : Proportionate w rc) :
    ∃ r, calculate_dimension_source w rc = .ok r ∧ 1 ≤ r.priority ∧
      r.priority ≤ 6 ∧ 1 ≤ r.baseW ∧ 1 ≤ r.baseH := by
  obtain ⟨r, hok, h1, h6, hb⟩ := resolver_master hwf
  obtain ⟨hbw, hbh⟩ := hb hp
  exact ⟨r, hok, h1, h6, hbw, hbh⟩

/-- The MP+Width widget state of the C2 witness. -/
def c2Widgets : Widgets :=
  { width_enabled := true, width_value := some 1200,
    mp_enabled := true, mp_value := some (3/2) }

/-- C2 witness at the MP+Width state `width = 1200`, `mp = 1.5`. -/
theorem C2_totality_witness :
    ∃ r, calculate_dimension_source c2Widgets {} = .ok r ∧ 1 ≤ r.priority ∧
      r.priority ≤ 6 ∧ 1 ≤ r.baseW ∧ 1 ≤ r.baseH := by
  have hwf : WellFormed c2Widgets {} := by
    refine ⟨by decide, by decide, ?_, trivial, by decide, ?_⟩
    · intro _
      show (0 : ℚ) ≤ 3/2
      norm_num
    · intro _ _ _
      show ((1200 : ℤ) : ℚ) < 2 * (3/2 * 1000000)
      norm_num
  have hp : Proportionate c2Widgets {} := by
    refine ⟨?_, ?_, ?_, ?_, ?_, ?_, ?_⟩
    · intro _ _ hh
      exact absurd hh (by decide)
    · intro _ hw
      exact absurd hw (by decide)
    · intro info hinfo
      exact absurd hinfo (by simp)
    · intro _ _ hm
      exact absurd hm (by decide)
    · intro hw
      exact absurd hw (by decide)
    · intro hw
      exact absurd hw (by decide)
    · show scaledBig 1000000 (activeRatioQ c2Widgets)
      have ha : activeRatioQ c2Widgets = ((16 : ℕ) : ℚ) / ((9 : ℕ) : ℚ) := rfl
      rw [ha]
      constructor
      · push_cast
        norm_num
      · push_cast
        norm_num
  exact C2_totality c2Widgets {} hwf hp

/-- The widget state of the C2 counterexample: width enabled with value 0. -/
def c2CexWidgets : Widgets := { width_enabled := true, width_value := some 0 }

/-- C2 counterexample: width enabled with value `0` resolves (priority 5)
to `baseW = 0` and `baseH = 0`, refuting the claim that every returned
result has both base dimensions at least `1`. -/
theorem C2_totality_counterexample :
    ∃ r, calculate_dimension_source c2CexWidgets {} = .ok r ∧
      r.priority = 5 ∧ r.baseW = 0 ∧ r.baseH = 0 := by
  rw [dispatch_to_width_ar (w := c2CexWidgets) rfl rfl rfl rfl rfl]
  obtain ⟨ar, har, hpos⟩ := get_active_aspect_ratio_ok
    (w := c2CexWidgets) (by decide)
  obtain ⟨r, hok, _, hpri, hbw, hbh, _, _⟩ :=
    calculate_width_with_ar_spec rfl har hpos
  refine ⟨r, hok, hpri, by rw [hbw], ?_⟩
  rw [hbh]
  rw [show ((0 : ℤ) : ℚ) / ar.ratio = 0 from by push_cast; ring]
  exact pyRound_eq (by norm_num) (by norm_num)

/-! ## Declarative characterization of the custom-ratio regex (claim C3) -/

/-- Declarative reading of one regex group `\d+(\.\d+)?`: a nonempty digit
string, optionally followed by a dot and a nonempty digit string. -/
def NumLit (l : List Char) : Prop :=
  (l ≠ [] ∧ ∀ c ∈ l, c.isDigit) ∨
  (∃ ds fs, l = ds ++ '.' :: fs ∧ ds ≠ [] ∧ (∀ c ∈ ds, c.isDigit) ∧
    fs ≠ [] ∧ (∀ c ∈ fs, c.isDigit))

/-- The exact rational value a matched group denotes (integer part plus
scaled fractional part). -/
def numVal (l : List Char) : ℚ :=
  match l.dropWhile (fun c => c ≠ '.') with
  | [] => (digitsVal l : ℚ)
  | _ :: fs =>
      (digitsVal (l.takeWhile (fun c => c ≠ '.')) : ℚ) +
        (digitsVal fs : ℚ) / 10 ^ fs.length

theorem takeWhile_all {p : Char → Bool} {l : List Char}
    (h : ∀ c ∈ l, p c) : l.takeWhile p = l := by
  induction l with
  | nil => rfl
  | cons c cs ih =>
      rw [List.takeWhile_cons, if_pos (h c (by simp))]
      rw [ih (fun x hx => h x (by simp [hx]))]

theorem dropWhile_all {p : Char → Bool} {l : List Char}
    (h : ∀ c ∈ l, p c) : l.dropWhile p = [] := by
  induction l with
  | nil => rfl
  | cons c cs ih =>
      rw [List.dropWhile_cons, if_pos (h c (by simp))]
      exact ih (fun x hx => h x (by simp [hx]))

theorem takeWhile_append_stop {p : Char → Bool} {ds : List Char}
    (hds : ∀ c ∈ ds, p c) {c : Char} (hc : p c = false) (rest : List Char) :
    ((ds ++ c :: rest).takeWhile p) = ds := by
  induction ds with
  | nil => simp [List.takeWhile_cons, hc]
  | cons d dd ih =>
      rw [List.cons_append, List.takeWhile_cons, if_pos (hds d (by simp))]
      rw [ih (fun x hx => hds x (by simp [hx]))]

theorem dropWhile_append_stop {p : Char → Bool} {ds : List Char}
    (hds : ∀ c ∈ ds, p c) {c : Char} (hc : p c = false) (rest : List Char) :
    ((ds ++ c :: rest).dropWhile p) = c :: rest := by
  induction ds with
  | nil => simp [List.dropWhile_cons, hc]
  | cons d dd ih =>
      rw [List.cons_append, List.dropWhile_cons, if_pos (hds d (by simp))]
      exact ih (fun x hx => hds x (by simp [hx]))

theorem digit_ne_dot {c : Char} (h : c.isDigit) : (decide (c ≠ '.')) = true := by
  simp only [decide_eq_true_eq]
  intro he
  subst he
  exact absurd h (by decide)

theorem digit_ne_colon {c : Char} (h : c.isDigit) : c ≠ ':' := by
  intro he
  subst he
  exact absurd h (by decide)

theorem NumLit_no_colon {l : List Char} (h : NumLit l) : ':' ∉ l := by
  rcases h with ⟨_, hd⟩ | ⟨ds, fs, hl, _, hds, _, hfs⟩
  · intro hm
    exact digit_ne_colon (hd _ hm) rfl
  · subst hl
    intro hm
    rcases List.mem_append.1 hm with hm | hm
    · exact digit_ne_colon (hds _ hm) rfl
    · rcases List.mem_cons.1 hm with hm | hm
      · exact absurd hm.symm (by decide)
      · exact digit_ne_colon (hfs _ hm) rfl

theorem numVal_int {ds : List Char} (hds : ∀ c ∈ ds, c.isDigit) :
    numVal ds = (digitsVal ds : ℚ) := by
  unfold numVal
  rw [dropWhile_all (fun c hc => digit_ne_dot (hds c hc))]

theorem numVal_decimal {ds : List Char} (fs : List Char)
    (hds : ∀ c ∈ ds, c.isDigit) :
    numVal (ds ++ '.' :: fs) =
      (digitsVal ds : ℚ) + (digitsVal fs : ℚ) / 10 ^ fs.length := by
  unfold numVal
  rw [dropWhile_append_stop (fun c hc => digit_ne_dot (hds c hc))
    (by decide) fs]
  dsimp only
  rw [takeWhile_append_stop (fun c hc => digit_ne_dot (hds c hc))
    (by decide) fs]

theorem parseNumLit_complete {l : List Char} (h : NumLit l) :
    parseNumLit l = some (numVal l) := by
  rcases h with ⟨hne, hd⟩ | ⟨ds, fs, hl, hdne, hds, hfne, hfs⟩
  · unfold parseNumLit
    rw [takeWhile_all hd, dropWhile_all hd, if_neg (by simpa using hne),
      numVal_int hd]
  · subst hl
    unfold parseNumLit
    rw [takeWhile_append_stop hds (by decide) fs,
      dropWhile_append_stop hds (by decide) fs]
    rw [if_neg (by simpa using hdne)]
    dsimp only
    rw [if_pos rfl]
    rw [if_pos (by
      simp only [ne_eq, Bool.and_eq_true, decide_eq_true_eq, List.all_eq_true]
      exact ⟨hfne, hfs⟩)]
    rw [numVal_decimal fs hds]

theorem parseNumLit_sound {l : List Char} {v : ℚ}
    (h : parseNumLit l = some v) : NumLit l ∧ v = numVal l := by
  unfold parseNumLit at h
  split_ifs at h with hne
  have hds : ∀ c ∈ l.takeWhile Char.isDigit, c.isDigit :=
    fun _ hc => List.mem_takeWhile_imp hc
  have happ : l.takeWhile Char.isDigit ++ l.dropWhile Char.isDigit = l :=
    List.takeWhile_append_dropWhile _ _
  have htne : l.takeWhile Char.isDigit ≠ [] := by simpa using hne
  split at h
  · -- dropWhile = []
    rename_i heq
    have hle : l.takeWhile Char.isDigit = l := by
      have h2 : l.takeWhile Char.isDigit ++ ([] : List Char) = l := heq ▸ happ
      simpa using h2
    have hld : ∀ c ∈ l, c.isDigit := fun c hc => hds c (by rw [hle]; exact hc)
    have hnl : NumLit l := Or.inl ⟨by rw [← hle]; exact htne, hld⟩
    cases h
    refine ⟨hnl, ?_⟩
    calc (digitsVal (l.takeWhile Char.isDigit) : ℚ)
        = numVal (l.takeWhile Char.isDigit) := (numVal_int hds).symm
      _ = numVal l := by rw [hle]
  · -- dropWhile = c :: fs
    rename_i c fs heq
    split_ifs at h with hdot hfs
    subst hdot
    simp only [ne_eq, Bool.and_eq_true, decide_eq_true_eq,
      List.all_eq_true] at hfs
    have hl : l = l.takeWhile Char.isDigit ++ '.' :: fs := by
      conv_lhs => rw [← happ, heq]
    have hnl : NumLit l :=
      Or.inr ⟨l.takeWhile Char.isDigit, fs, hl, htne, hds, hfs.1, hfs.2⟩
    cases h
    refine ⟨hnl, ?_⟩
    calc (digitsVal (l.takeWhile Char.isDigit) : ℚ) +
          (digitsVal fs : ℚ) / 10 ^ fs.length
        = numVal (l.takeWhile Char.isDigit ++ '.' :: fs) :=
          (numVal_decimal fs hds).symm
      _ = numVal l := by rw [← hl]

theorem splitFirstColon_append {a : List Char} (ha : ':' ∉ a)
    (b : List Char) : splitFirstColon (a ++ ':' :: b) = some (a, b) := by
  induction a with
  | nil => simp [splitFirstColon]
  | cons c cs ih =>
      have hc : ¬ c = ':' := fun he => ha (by simp [he])
      rw [List.cons_append]
      unfold splitFirstColon
      rw [if_neg hc, ih (fun hm => ha (by simp [hm]))]
      rfl

theorem splitFirstColon_sound :
    ∀ {l a b : List Char}, splitFirstColon l = some (a, b) →
      l = a ++ ':' :: b ∧ ':' ∉ a := by
  intro l
  induction l with
  | nil => intro a b h; cases h
  | cons c cs ih =>
      intro a b h
      unfold splitFirstColon at h
      split_ifs at h with hc
      · cases h
        subst hc
        exact ⟨rfl, by simp⟩
      · rcases Option.map_eq_some'.1 h with ⟨⟨a0, b0⟩, hsp, hpair⟩
        obtain ⟨hl, hnc⟩ := ih hsp
        cases hpair
        refine ⟨by rw [hl]; rfl, ?_⟩
        intro hm
        rcases List.mem_cons.1 hm with hm | hm
        · exact hc hm.symm
        · exact hnc hm

theorem matchRatioChars_complete {a b : List Char}
    (ha : NumLit a) (hb : NumLit b) :
    matchRatioChars (a ++ ':' :: b) = some (numVal a, numVal b) := by
  unfold matchRatioChars
  rw [splitFirstColon_append (NumLit_no_colon ha) b]
  dsimp only
  rw [parseNumLit_complete ha, parseNumLit_complete hb]

theorem matchRatioChars_sound {l : List Char} {x y : ℚ}
    (h : matchRatioChars l = some (x, y)) :
    ∃ a b, l = a ++ ':' :: b ∧ NumLit a ∧ NumLit b ∧
      x = numVal a ∧ y = numVal b := by
  unfold matchRatioChars at h
  split at h
  · cases h
  · rename_i a0 b0 heq
    obtain ⟨hl, _⟩ := splitFirstColon_sound heq
    split at h
    · rename_i x0 y0 hpa hpb
      cases h
      obtain ⟨hna, hva⟩ := parseNumLit_sound hpa
      obtain ⟨hnb, hvb⟩ := parseNumLit_sound hpb
      exact ⟨a0, b0, hl, hna, hnb, hva, hvb⟩
    · cases h

/-- C3 (amended): after trimming, text matching
`^(\d+(\.\d+)?):(\d+(\.\d+)?)$` is returned as that `W:H` pair with source
`custom_ratio` with **no positivity check** — `0:1` parses to `0:1`, not to
the fallback — except that a zero second component raises a
`ZeroDivisionError`; every non-matching text yields the `16:9` fallback with
source `fallback`. -/
theorem C3_custom_ratio_parsing (s : String) :
    (∀ a b, (pyStrip s).data = a ++ ':' :: b → NumLit a → NumLit b →
      (numVal b ≠ 0 →
        parse_custom_aspect_ratio s =
          .ok ⟨numVal a / numVal b, numVal a, numVal b, some "custom_ratio"⟩) ∧
      (numVal b = 0 →
        parse_custom_aspect_ratio s = .error .floatZeroDiv)) ∧
    ((¬ ∃ a b, (pyStrip s).data = a ++ ':' :: b ∧ NumLit a ∧ NumLit b) →
      parse_custom_aspect_ratio s = .ok ⟨16/9, 16, 9, some "fallback"⟩) := by
  constructor
  · intro a b hdec ha hb
    have hm : matchRatioChars (pyStrip s).data = some (numVal a, numVal b) := by
      rw [hdec]
      exact matchRatioChars_complete ha hb
    constructor
    · intro hnz
      unfold parse_custom_aspect_ratio
      rw [hm]
      dsimp only
      rw [if_neg hnz]
    · intro hz
      unfold parse_custom_aspect_ratio
      rw [hm]
      dsimp only
      rw [if_pos hz]
  · intro hno
    have hm : matchRatioChars (pyStrip s).data = none := by
      rcases hmm : matchRatioChars (pyStrip s).data with _ | ⟨x, y⟩
      · rfl
      · obtain ⟨a, b, hl, hna, hnb, _, _⟩ := matchRatioChars_sound hmm
        exact absurd ⟨a, b, hl, hna, hnb⟩ hno
    unfold parse_custom_aspect_ratio
    rw [hm]

/-- C3 counterexample: the custom text `"0:1"` matches the pattern with a
non-positive first component, and the code returns it as `0:1` with source
`custom_ratio` — not the `16:9` fallback the claim promises for non-positive
values. -/
theorem C3_custom_ratio_parsing_counterexample :
    parse_custom_aspect_ratio "0:1" =
      .ok ⟨0, 0, 1, some "custom_ratio"⟩ := by
  unfold parse_custom_aspect_ratio
  rw [show matchRatioChars (pyStrip "0:1").data =
    some (((0 : ℕ) : ℚ), ((1 : ℕ) : ℚ)) from by decide]
  dsimp only
  rw [if_neg (by norm_num : ((1 : ℕ) : ℚ) ≠ 0)]
  simp only [Except.ok.injEq, ArInfo.mk.injEq]
  norm_num

/-- C3 witness: the cinema ratio `"2.39:1"` parses to `2.39:1` with source
`custom_ratio`. -/
theorem C3_custom_ratio_parsing_witness :
    parse_custom_aspect_ratio "2.39:1" =
      .ok ⟨239/100, 239/100, 1, some "custom_ratio"⟩ := by
  have hdec : (pyStrip "2.39:1").data = ['2', '.', '3', '9'] ++ ':' :: ['1'] := by
    decide
  have hna : NumLit ['2', '.', '3', '9'] :=
    Or.inr ⟨['2'], ['3', '9'], by decide, by decide, by decide, by decide,
      by decide⟩
  have hnb : NumLit ['1'] := Or.inl ⟨by decide, by decide⟩
  have hv1 : numVal ['1'] = 1 := by
    rw [numVal_int (by decide), show digitsVal ['1'] = 1 from rfl]
    norm_num
  have hva : numVal ['2', '.', '3', '9'] = 239/100 := by
    rw [show (['2', '.', '3', '9'] : List Char) = ['2'] ++ '.' :: ['3', '9']
      from rfl]
    rw [numVal_decimal ['3', '9'] (by decide)]
    rw [show digitsVal ['2'] = 2 from rfl, show digitsVal ['3', '9'] = 39
      from rfl, show (['3', '9'] : List Char).length = 2 from rfl]
    push_cast
    norm_num
  have h := ((C3_custom_ratio_parsing "2.39:1").1 ['2', '.', '3', '9'] ['1']
    hdec hna hnb).1 (by rw [hv1]; norm_num)
  rw [hva, hv1, show ((239 : ℚ)/100)/1 = 239/100 from by norm_num] at h
  exact h
